import Mathlib

/-!
Verification model of `scripts/generate_employees_csv.py`.

The script writes a CSV header to a freshly truncated file and then loops:
it queries the on-disk size with `os.path.getsize`, generates a candidate
row from a seeded `random.Random` instance, and either accepts the row into
an application-level buffer or flushes and stops when the row would push
`on_disk_size + buffered_bytes + row_bytes` past the target.  The buffer is
flushed to disk once it reaches `--flush-bytes`.

The embedding below models, faithfully to CPython semantics:
  * the Mersenne Twister MT19937 generator together with CPython's seeding
    (`init_by_array`), `getrandbits`, `Random._randbelow`, `randint` and
    `choice`, with the rejection loop of `_randbelow` given explicit fuel;
  * `datetime.date.fromordinal(..).isoformat()` via the proleptic Gregorian
    calendar algorithm used by CPython's `datetime` module;
  * the file-system visible state.  `open(.., "w")` truncates the file; a
    `f.write` only moves bytes into the process's userspace buffer, so
    `os.path.getsize` does not see them until `f.flush()` (or close).  In the
    script every `f.write` of row data is immediately followed by
    `f.flush()`, while the header write is not followed by a flush,
    so the on-disk size seen by the loop is 0 until the first flush.  The
    model therefore tracks `written` (all bytes sent to the file object, in
    order) and `flushedLen` (the byte count visible to `os.path.getsize`).
    Closing the file flushes the rest, so the final file content is exactly
    `written`.
-/

namespace GenEmployees

/-! ## UTF-8 byte length

The script measures sizes with `len(row.encode("utf-8"))`.  `Char.utf8Size`
is the number of bytes of the UTF-8 encoding of one scalar value, so the
byte length of the encoding of a string is the sum over its characters. -/

def utf8Len (s : String) : Nat := (s.data.map Char.utf8Size).sum

/-! ## MT19937, as used by CPython's `random.Random`

Constants and algorithm follow `_randommodule.c` (the reference
Mersenne Twister: `init_genrand`, `init_by_array`, `genrand_uint32`).
The 624-word state is a `List Nat` of 32-bit words. -/

def U32 : Nat := 4294967296

/-- MT19937 state.  The 624-word array `mt` is packed into one natural
number, word `i` occupying bits `32*i .. 32*i+31` (so word `i` is
`(mt >>> (32*i)) % 2^32`); this packing keeps every state update a small
number of arbitrary-precision integer operations. -/
structure MTState where
  mt : Nat
  mti : Nat
  deriving Repr, DecidableEq

/-- Word `i` of a packed state. -/
def mtGet (mt i : Nat) : Nat := (mt >>> (32 * i)) % U32

/-- Replace word `i` of a packed state by `v` (with `v < 2^32`): keep the
bits below the word, add the new word, keep the bits above it. -/
def mtSet (mt i v : Nat) : Nat :=
  mt % (1 <<< (32 * i)) + v <<< (32 * i) + (mt >>> (32 * (i + 1))) <<< (32 * (i + 1))

/-- Words `1..623` of `init_genrand`: each word is
`(1812433253 * (prev ^^^ (prev >>> 30)) + i) mod 2^32`. -/
def initGenrandFrom (mt i : Nat) : Nat → Nat
  | 0 => mt
  | fuel + 1 =>
    let prev := mtGet mt (i - 1)
    let w := (1812433253 * (prev ^^^ (prev >>> 30)) + i) % U32
    initGenrandFrom (mtSet mt i w) (i + 1) fuel

def initGenrand (s : Nat) : Nat :=
  initGenrandFrom (s % U32) 1 623

/-- First mixing loop of `init_by_array`; returns the state together with
the loop variables `i` and `j` (the second loop continues at this `i`). -/
def ibaLoop1 (key : List Nat) : Nat → Nat → Nat → Nat → Nat × Nat × Nat
  | mt, i, j, 0 => (mt, i, j)
  | mt, i, j, k + 1 =>
    let prev := mtGet mt (i - 1)
    let v := ((mtGet mt i ^^^ ((prev ^^^ (prev >>> 30)) * 1664525)) + key.getD j 0 + j) % U32
    let mt1 := mtSet mt i v
    let i1 := i + 1
    let j1 := j + 1
    let mt2 := if 624 ≤ i1 then mtSet mt1 0 (mtGet mt1 623) else mt1
    let i2 := if 624 ≤ i1 then 1 else i1
    let j2 := if key.length ≤ j1 then 0 else j1
    ibaLoop1 key mt2 i2 j2 k

/-- Second mixing loop of `init_by_array`; the subtraction of `i` is
modulo `2^32`.  Returns the state together with the loop variable `i`. -/
def ibaLoop2 : Nat → Nat → Nat → Nat × Nat
  | mt, i, 0 => (mt, i)
  | mt, i, k + 1 =>
    let prev := mtGet mt (i - 1)
    let v := ((mtGet mt i ^^^ ((prev ^^^ (prev >>> 30)) * 1566083941)) % U32 + U32 - i % U32) % U32
    let mt1 := mtSet mt i v
    let i1 := i + 1
    let mt2 := if 624 ≤ i1 then mtSet mt1 0 (mtGet mt1 623) else mt1
    let i2 := if 624 ≤ i1 then 1 else i1
    ibaLoop2 mt2 i2 k

/-- CPython `init_by_array`: mix a seed key into the state produced by
`init_genrand 19650218`, then force the top bit of word 0. -/
def initByArray (key : List Nat) : MTState :=
  let m0 := initGenrand 19650218
  let m1 := ibaLoop1 key m0 1 0 (max 624 key.length)
  let m2 := ibaLoop2 m1.1 m1.2.1 623
  ⟨mtSet m2.1 0 2147483648, 624⟩

/-- CPython `random_seed` for an integer seed: take the absolute value and
split it into 32-bit limbs, least significant first (`0` gives `[0]`). -/
def seedKey : Nat → List Nat
  | 0 => [0]
  | n =>
    let rec limbs : Nat → Nat → List Nat
      | 0, _ => []
      | fuel + 1, m => if m = 0 then [] else m % U32 :: limbs fuel (m / U32)
    limbs n n

def mtOfSeed (seed : Nat) : MTState := initByArray (seedKey seed)

/-- One step of the twist: recompute word `kk` from words `kk`, `kk+1` and
`kk+397` (indices mod 624). -/
def twistStep (mt kk : Nat) : Nat :=
  let y := (mtGet mt kk &&& 2147483648) + (mtGet mt ((kk + 1) % 624) &&& 2147483647)
  let v := mtGet mt ((kk + 397) % 624) ^^^ (y >>> 1) ^^^ (if y % 2 = 1 then 2567483615 else 0)
  mtSet mt kk v

def twistFrom (mt kk : Nat) : Nat → Nat
  | 0 => mt
  | fuel + 1 => twistFrom (twistStep mt kk) (kk + 1) fuel

def twist (mt : Nat) : Nat := twistFrom mt 0 624

/-- CPython `genrand_uint32`: twist when the index reaches 624, then read
one word and temper it. -/
def genrandUInt32 (s : MTState) : Nat × MTState :=
  let s1 := if 624 ≤ s.mti then MTState.mk (twist s.mt) 0 else s
  let y0 := mtGet s1.mt s1.mti
  let y1 := y0 ^^^ (y0 >>> 11)
  let y2 := y1 ^^^ ((y1 <<< 7) &&& 2636928640)
  let y3 := y2 ^^^ ((y2 <<< 15) &&& 4022730752)
  let y4 := y3 ^^^ (y3 >>> 18)
  (y4, MTState.mk s1.mt (s1.mti + 1))

/-- CPython `getrandbits k` for `1 ≤ k ≤ 32`: the top `k` bits of one
32-bit word. -/
def getrandbits (k : Nat) (s : MTState) : Nat × MTState :=
  let (w, s1) := genrandUInt32 s
  (w >>> (32 - k), s1)

/-- Number of binary digits, with fuel (`n` halves each step, so fuel `n`
always suffices). -/
def bitLengthAux : Nat → Nat → Nat
  | 0, _ => 0
  | fuel + 1, n => if n = 0 then 0 else bitLengthAux fuel (n / 2) + 1

/-- Number of bits of `n` (Python `int.bit_length`). -/
def bitLength (n : Nat) : Nat := bitLengthAux n n

/-- CPython `Random._randbelow_with_getrandbits` for `n ≥ 1`: draw
`bit_length n` bits, rejecting draws `≥ n`.  The rejection loop is given
explicit fuel; `none` means the fuel was exhausted. -/
def randbelow (n : Nat) : Nat → MTState → Option (Nat × MTState)
  | 0, _ => none
  | fuel + 1, s =>
    let k := bitLength n
    let (r, s1) := getrandbits k s
    if r < n then some (r, s1) else randbelow n fuel s1

/-- Fuel for the rejection loop of `randbelow`; each attempt succeeds with
probability above one half, so 64 attempts are ample for concrete runs. -/
def rbFuel : Nat := 64

/-- Python `rng.randint a b` = `a + _randbelow (b + 1 - a)`. -/
def randint (a b : Nat) (s : MTState) : Option (Nat × MTState) :=
  (randbelow (b + 1 - a) rbFuel s).map fun p => (a + p.1, p.2)

/-- Python `rng.choice seq` = `seq[_randbelow (len seq)]`. -/
def choice (l : List String) (s : MTState) : Option (String × MTState) :=
  (randbelow l.length rbFuel s).map fun p => (l.getD p.1 "", p.2)

/-! ## Dates (CPython `datetime`)

Ordinals count days of the proleptic Gregorian calendar, day 1 being
0001-01-01.  The definitions mirror `_days_before_year`,
`_days_before_month`, `_ymd2ord` and `_ord2ymd` from CPython's
`datetime.py`. -/

def DAYS_IN_MONTH : List Nat := [0, 31, 28, 31, 30, 31, 30, 31, 31, 30, 31, 30, 31]

def DAYS_BEFORE_MONTH : List Nat := [0, 0, 31, 59, 90, 120, 151, 181, 212, 243, 273, 304, 334]

def isLeap (y : Nat) : Bool := y % 4 == 0 && (y % 100 != 0 || y % 400 == 0)

def daysBeforeYear (year : Nat) : Nat :=
  let y := year - 1
  y * 365 + y / 4 - y / 100 + y / 400

def daysBeforeMonth (year month : Nat) : Nat :=
  DAYS_BEFORE_MONTH.getD month 0 + (if 2 < month ∧ isLeap year then 1 else 0)

/-- Python `datetime.date(y, m, d).toordinal()`. -/
def ymd2ord (year month day : Nat) : Nat :=
  daysBeforeYear year + daysBeforeMonth year month + day

/-- Python `datetime.date.fromordinal n`, as year, month, day. -/
def ord2ymd (nn : Nat) : Nat × Nat × Nat :=
  let n0 := nn - 1
  let n400 := n0 / 146097
  let r400 := n0 % 146097
  let n100 := r400 / 36524
  let r100 := r400 % 36524
  let n4 := r100 / 1461
  let r4 := r100 % 1461
  let n1 := r4 / 365
  let n := r4 % 365
  let year := n400 * 400 + 1 + n100 * 100 + n4 * 4 + n1
  if n1 = 4 ∨ n100 = 4 then (year - 1, 12, 31)
  else
    let leap := n1 == 3 && (n4 != 24 || n100 == 3)
    let month := (n + 50) >>> 5
    let preceding := DAYS_BEFORE_MONTH.getD month 0 + (if 2 < month ∧ leap then 1 else 0)
    if n < preceding then
      let month1 := month - 1
      let preceding1 :=
        preceding - (DAYS_IN_MONTH.getD month1 0 + (if month1 = 2 ∧ leap then 1 else 0))
      (year, month1, n - preceding1 + 1)
    else
      (year, month, n - preceding + 1)

/-- Zero-pad the decimal representation of `n` to width `w`. -/
def pad (w n : Nat) : String :=
  let s := Nat.repr n
  String.mk (List.replicate (w - s.length) '0') ++ s

/-- Python `date.isoformat()`: `%04d-%02d-%02d` of year, month, day. -/
def isoDate (o : Nat) : String :=
  let ymd := ord2ymd o
  pad 4 ymd.1 ++ "-" ++ pad 2 ymd.2.1 ++ "-" ++ pad 2 ymd.2.2

/-! ## The script's data tables and row synthesis -/

def FIRST_NAMES : List String :=
  ["Alice", "Bob", "Carol", "David", "Eva", "Frank", "Grace", "Henry", "Ivy", "Jack",
   "Liam", "Mia", "Noah", "Olivia", "Priya", "Quinn", "Rosa", "Sam", "Tina", "Uma",
   "Victor", "Wen", "Xavier", "Yara", "Zoe"]

def LAST_NAMES : List String :=
  ["Johnson", "Martinez", "Lee", "Kim", "Smith", "Zhao", "Patel", "Nguyen", "Chen",
   "Brown", "Davis", "Wilson", "Garcia", "Hernandez", "Lopez", "Gonzalez", "Anderson",
   "Thomas", "Taylor", "Moore"]

def DEPARTMENTS : List String :=
  ["Engineering", "Sales", "Marketing", "Finance", "HR", "Product", "Support", "Operations"]

/-- Ordinal of `date(2010, 1, 1)`, the start of the hire-date range. -/
def DATE_START : Nat := ymd2ord 2010 1 1

/-- Ordinal of `date(2024, 12, 31)`, the end of the hire-date range. -/
def DATE_END : Nat := ymd2ord 2024 12 31

/-- Python `_rand_date`: a uniform ordinal in the closed range, as ISO text. -/
def rand_date (s : MTState) : Option (String × MTState) :=
  (randint DATE_START DATE_END s).map fun p => (isoDate p.1, p.2)

/-- Python `_make_row i rng`: five RNG draws serialized as one CSV line. -/
def make_row (i : Nat) (s : MTState) : Option (String × MTState) :=
  (choice FIRST_NAMES s).bind fun p1 =>
  (choice LAST_NAMES p1.2).bind fun p2 =>
  (choice DEPARTMENTS p2.2).bind fun p3 =>
  (randint 45000 220000 p3.2).bind fun p4 =>
  (rand_date p4.2).map fun p5 =>
  (Nat.repr i ++ "," ++ p1.1 ++ " " ++ p2.1 ++ "," ++ p3.1 ++ "," ++
     Nat.repr p4.1 ++ "," ++ p5.1 ++ "\n", p5.2)

/-! ## The size-bounded write loop of `main`

The state mirrors the run-time state of the script together with four
ghost fields used only to state properties: `rows` (accepted rows in
order), `tops` (the pair of on-disk size and buffered byte count observed
at the start of each loop iteration), `calls` (how many times `_make_row`
has been called) and `rejected` (the byte length of the candidate row that
the final iteration discarded).  `written` is every byte handed to the
Python file object in order; `flushedLen` is the byte count visible to
`os.path.getsize`, which lags behind `written` until a flush (the header
is written without one). -/

def header : String := "employee_id,name,department,salary,hire_date\n"

structure GenState where
  written : String
  flushedLen : Nat
  buf : List String
  bufBytes : Nat
  i : Nat
  rng : MTState
  rows : List String
  tops : List (Nat × Nat)
  calls : Nat
  rejected : Option Nat
  deriving Repr

/-- Python `f.write("".join(buf)); buf.clear(); buf_bytes = 0; f.flush()`:
after the flush, `os.path.getsize` sees every byte written so far. -/
def flushState (st : GenState) : GenState :=
  { st with
    written := st.written ++ String.join st.buf
    flushedLen := utf8Len (st.written ++ String.join st.buf)
    buf := []
    bufBytes := 0 }

/-- Result of the `while True` loop: `done` carries the state after
`break` (with the break-branch flush applied), `rngOut` reports that the
fuel of a `_randbelow` rejection loop ran out, and `fuelOut` that the
iteration fuel ran out. -/
inductive LoopRes where
  | done : GenState → LoopRes
  | rngOut : LoopRes
  | fuelOut : LoopRes

/-- One-to-one image of the script's loop body.  `B` is `args.bytes` and
`F` is `args.flush_bytes`, kept as integers since Python accepts negative
values for both. -/
def loopN (B F : Int) : Nat → GenState → LoopRes
  | 0, _ => .fuelOut
  | fuel + 1, st0 =>
    let st := { st0 with tops := st0.tops ++ [(st0.flushedLen, st0.bufBytes)] }
    let currentSize := st.flushedLen
    match make_row st.i st.rng with
    | none => .rngOut
    | some (row, rng1) =>
      let rowBytes := utf8Len row
      let st := { st with calls := st.calls + 1, rng := rng1 }
      if (currentSize : Int) + (st.bufBytes : Int) + (rowBytes : Int) > B then
        let st := { st with rejected := some rowBytes }
        .done (if st.buf.isEmpty then st else flushState st)
      else
        let st := { st with
          buf := st.buf ++ [row]
          bufBytes := st.bufBytes + rowBytes
          i := st.i + 1
          rows := st.rows ++ [row] }
        loopN B F fuel (if F ≤ (st.bufBytes : Int) then flushState st else st)

/-- State right after `open(out, "w")`, `f.write(header)` and the
initializations: the file on disk is empty (the header sits in the file
object's userspace buffer), the row counter starts at 1. -/
def initState (seed : Nat) : GenState :=
  { written := header
    flushedLen := 0
    buf := []
    bufBytes := 0
    i := 1
    rng := mtOfSeed seed
    rows := []
    tops := []
    calls := 0
    rejected := none }

/-- Iteration fuel that always suffices (proved below): the loop runs one
iteration per accepted row plus a final rejecting one, and each accepted
row is at least one byte against a budget of `B`. -/
def runFuel (B : Int) : Nat := B.toNat + 2

/-- Whole run of the generation loop for target `B`, seed `seed`, flush
threshold `F`. -/
def runLoop (B F : Int) (seed : Nat) : LoopRes :=
  loopN B F (runFuel B) (initState seed)

/-- The final state a loop outcome carries, if it completed. -/
def LoopRes.toOption : LoopRes → Option GenState
  | .done st => some st
  | _ => none

/-- The run as an optional final state; `none` only if some `_randbelow`
rejection loop exceeded its fuel (never observed on concrete inputs). -/
def genRun (B F : Int) (seed : Nat) : Option GenState :=
  (runLoop B F seed).toOption

/-- Bytes of the output file after the `with` block closes the file:
closing flushes whatever the file object still buffers, so the file holds
exactly the bytes written, in order. -/
def fileBytes (st : GenState) : String := st.written

/-- Final size of the output file in bytes, as `os.path.getsize` reports
after the run. -/
def fileSize (st : GenState) : Nat := utf8Len st.written

/-! ## Checkpoint constants for seed 42

Kernel-checked intermediate values of the seeding pipeline and the first
twist for seed 42.  Each constant is validated by an equation below that
the kernel evaluates from the previous checkpoint; the constants exist so
that no single definitional-equality check has to walk more than a few
hundred sequential state updates. -/

def mtA1 : Nat :=
  43451447770933355967655871035138949693569261124825171477259371368242040963630315041640600927062429357342263245072047913504023898976222663001529237181465201772843534221011158941461788237762698589261273801769281502502593118350248735333713311198202497828243017791061617341960439265842889406544782867384102031255415178900271700980034168162099017956864365589687933957192069187376259297852575715811388574171215432492658087185762998133264937618221271755098965785706070432997411298302669325798217537933293030347163471750845422681163572671323163202114877642119962417042471289236322169711500740026105874938956762201603260389777781630279713951086029849345573805932629935728933211559110808097128740387659360937505283811305307347869883257125318992063172672017615398536223451585974537588286022205134009526045686872405388374260265035160946462461317145380067221477742827625033291004988186600847047377754436956112252765415547548408556447351514012263030872155378162443767249075800305742610089963329250678542759130875153917902877000807677462921581614667852151540757676825924685240218932446899250696312449506135479343622804623859202371994529890468382846930685411934794688331648287209458802119989744293689297836832290230577568486221523698209302874511121874762150532638410906132104470889309461291278796138128439899576644934370820510807927041579775331321262853219456273416624914629492046704521098886302371997733497169681590999013636545589526730424048338678309150088059101227216260252295312930593924952910598006343530852486415054899957422866806481309347647590361328438947697292746295807809428922793414666431031814032861628969263850718323415981880030858167528846350251046504303358726259363323070269072187751201049724611599535900338130652159317711611833200261613695454102202814578620205541009402153224278689166045349627866295907532129503895413832810001764573153936452102111555030652334240483122102594841884380674317392563630683854541905006240664521198153740937166191474997625752436218240484367957684741526689649510263592542862349097987484326349923217637403156985861455776990955562277159694815042715216724617281559276212445232985599228436390356449552586460255915535860776483174844518320695425225063695481080178103231631950275973599455300666837807626044694234147242514012101510230019527491077792176108322681805294472844587867838741311282738328647507874489747241806324255865685263010191263492795301111565976750841965370576184466410593308712339528181219905472475204122126760987352893962695606471420148579799216517439021817837338880498212480863841635080417758859006076745928135992556866011781792223422737565911596816399712199640792654318509917637608884290031624551158142734411201386157483991292013621678138939288482992546376894032653839238558962841745275990259484118213751656221934669102001560497906162914383442900645772006269349662366806111990602419656871248887642639965754962717384557626116538075248782173671677328111889848696227829607958952219328265125408926725048538271658360205449107884774215457740765053921576049468809462583970011502335658

def mtA2 : Nat :=
  62685089405509111925910797243914719854890513935494713084094713797279779630627496305943786046941309007281293105221577504421353501605599255248785149356818580886163074212016138319710181437623915839386196989339984175865611290932895638485827512283879634622589907034847096838980553398268338905605705315464924834076955485269257682765843392777664062904318116756644819538761883164862381873685805923051342196114892111881287659915424456096361326051748180740843339721465950121631833352165428366344241754810081140762710579390137795215443629123183303201044796731629341661542390258966032612552126580439913324626563213547393121217728067632048719897064596438939163041106934301355643192260261867872030533878188557727018817797219012064641958276099544136480610826250078810896212505254064619595899307426216931651016613164877613570296351724055264357110051005104450572173606849938075379012356137114572525910752676385589168436483206759652170097284388598518122222819376116616668668677988651997615236221431416155794821321118852088948452164682783715959922435191327367306488124638818446090532334864386359317233873012285172875896330714873881780586230596002778688422250420590175698633544778262136505069053046737202152515000629854634631225453245996997340762744567896897683212149150732909707719966588817675821630380251456266588599804209831660991462715440400663143017564651072677052296295930367391822676512661642282350234567553218318066651318510488484545671729568971887621684270732981974442582657502555066960418690332945218280990034155505553171409775830458482159957769211244505225186771766058316021949327301666418107251589707938065072144733816368743637495699897181007119363672460040974223449086641663004605507793014252452324150238463715514559124307431648478948480649031081489229583165223570218974125422263886587593014744330199975749832650568652404661542746543584685860761547297457070273167102314576665676644281998277713093924236551494770138725647883566971887853912300960949802636372591951717316415323846182747445131420005722224687602711525724505110953736568981699982016588947035894059736087136235396798804019434387781559696138411966704777989194870090051835909943079457649936020314680876367897457337488804889342331824364904005266943816631681518612047693872607083945336048154993001716858914072302230374294986610531277637599664647525761147514008899238689946802093944865612982597431648203028809043429562401771290925843222821220221381984318518256971016750121270624021542153515130386081256853244444367484914891752438843250797295149886721543902585582757118492217204960123203770309672216674331373413106027454841661967870247822106376003696537006476355273043676224973894002060133928765135363584693312631060562155459381152426642778209514491263275588735458188352331628933634618912177576995916817414488324819680108333628484452298807271017999262374749573133359090629722111402666396222385680310709557844049479865847370371052888681758484468279513921172987571336140289500145715018352119752770038578015899178947425013401300127437407370742417936980607757405410607208376626705322894782663757703548808362869195819947150150865798288136994832911439410269353230208345410503242199606186650417333579047848825834242257112060317620885151293421378661990197161958015730358249113963865616811805417654957899792836277351433146683316643158745577273742588847277405020330699298979666450169324546781433015633218213248018986767013905101885085728066131985273947793365444250280947765884488609302913437528001802423347517836456663978922564542901160075954132077499502061844004777463229898312792357201472450520034421742281215395838957029567457078867297742321364249618062920323524100796395855490398720473188748064226082130624085325443879193454095100721902723688608983702297802922465778395428510531587340343771240068168890882622394112252370643121994567113348850616779414952571984309063927162547038575769391208822294299053225776973195785292510157058775147687493667385905281728614066936870793483631104130486096422866739022254251631022238998824784309871214211336594149372534724828516536519652291847191320934127662041939033266344757810255450761243406685982638804631309022215852991706323223872506356963395668107287976200691035733250165615782065576159415303394415966535152327550107294310945533761757937224536792146711105700674959937207778503501562879445241463662142281185819506210181780721218897488871995890898495582077564387715740371190275817001449471008660140255770382875594805433223352833476546594040372715841292252983175468170554585838014797017976570586587751089146553833551413146641975370517778330202052282190648141351908509904289169596729111939424597802445523234111653813513351586367960175769546506050051493655326103823629699245586418016468660736051425039803522537493270385743437525903109563398688573456345292160567787373069854610200635728800730405759403691875432721043746233636765094325962472698626875833148826372580999341547042531665331710768365982359935219565301595187067772247975847412037958098451506998773182171027695752045356894447709388159633645629545493246019135820915900506906032640701290570506299065346661219735445730896769091171352761432210047450382980030625592142825700677633624952217795344145832513082782540989616413040988227257601039794195623143595351637462190706636535912449334420058581521218743569834717812580171279915160794789675762903718339466089866492140118823551337811927493524761760551434001520245324751568861558716803095718510972066599595072196209156923318071322517301806566620458899402166430591631348363311478802800521980525250372511467674969151489645720009661369785217086930227581405674315978920044798755483144811069077253851302610194739624245401270682864202663540116818822475326676741780611737275972111438408802370422377608919256570335384654037352344114105999356653180812503717835632673409647782213628400383443178293619326757139369589058612122088577237252104060778375287897543799460272211546791798613974575310224299012205778134871255296492395729078221387894808011355820153110205338707003138385845672884757408327786763143168159295742358655797897448897721796416755370

def mtB1 : Nat :=
  62685089405509111925910797243914719854890513935494713084094713797279779630627496305943786046941309007281293105221577504421353501605599255248785149356818580886163074212016138319710181437623915839386196989339984175865611290932895638485827512283879634622589907034847096838980553398268338905605705315464924834076955485269257682765843392777664062904318116756644819538761883164862381873685805923051342196114892111881287659915424456096361326051748180740843339721465950121631833352165428366344241754810081140762710579390137795215443629123183303201044796731629341661542390258966032612552126580439913324626563213547393121217728067632048719897064596438939163041106934301355643192260261867872030533878188557727018817797219012064641958276099544136480610826250078810896212505254064619595899307426216931651016613164877613570296351724055264357110051005104450572173606849938075379012356137114572525910752676385589168436483206759652170097284388598518122222819376116616668668677988651997615236221431416155794821321118852088948452164682783715959922435191327367306488124638818446090532334864386359317233873012285172875896330714873881780586230596002778688422250420590175698633544778262136505069053046737202152515000629854634631225453245996997340762744567896897683212149150732909707719966588817675821630380251456266588599804209831660991462715440400663143017564651072677052296295930367391822676512661642282350234567553218318066651318510488484545671729568971887621684270732981974442582657502555066960418690332945218280990034155505553171409775830458482159957769211244505225186771766058316021949327301666418107251589707938065072144733816368743637495699897181007119363672460040974223449086641663004605507793014252452324150238463715514559124307431648478948480649031081489229583165223570218974125422263886587593014744330199975749832650568652404661542746543584685860761547297457070273167102314576665676644281998277713093924236551494770138725647883566971887853912300960949802636372591951717316415323846182747445131420005722224687602711525724505110953736568981699982016588947035894059736087136235396798804019434387781559696138411966704777989194870090051835909943079457649936020314680876367897457337488804889342331824364904005266943816631681518612047693872607083945336048154993001716858914072302230374294986610531277637599664647525761147514008899238689946802093944865612982597431648203028809043429562401771290925843222821220221381984318518256971016750121270624021542153515130386081256853244444367484914891752438843250797295149886721543902585582757118492217204960123203770309672216674331373413106027454841661967870247822106376003696537006476355273043676224973894002060133928765135363584693312631060562155459381152426642778209514491263275588735458188352331628933634618912177576995916817414488324819680108333628484452298807271017999262374749573133359090629722111402666396222385680310709557844049479865847370371052888681758484468279513921172987571336140289500145715018352119752770038578015899178947425013401300127437407370742417936980738455304137284431084381239360403362915983463134679949187798061689403573080465775647209174644291801373034748341292567450595097089421990343522847866615232611452214867722179708124029325674911875178612843024186601906115005580552642422321453433941752595264772438440170141836387576158886351375031751180704088488980053780139936226258931132673040354207694199354803949662490665944050623979966650943670448681124798896747908636254231444583744826068353475285825766686859132645838267491278590459348817949669190509824691554267805141195311944072653780422124422040408801662949082835768993279165488421242539384427492232531526318772001878399897790963700436549916352385062508397331144326508500922791606939942331669250556710734577184430815453456704894574998717392070785342130187805669063162204466224433579103956180414295878767016993479542419059527208513383894744900612060383028941315950134131390533011791504278003144894195744619620789154756513851215420791879131788663591866987303131605930899488427109468630330829637245158076847591699647709330919366853515007784845526727744289308819912594175738615826352087329035534302281874176058642871304896305177719829731473702784665409090027215648308928470333697989738249741328872950197770335079937891374064208510319745887264535239773011436708666693462158165177746655989086599143718631674574276617354584432964193940522143047997547289264727108968137690610866449520090694632542126571582354279900387497865104945892916675468957416355113135893790033532687599230261448170596177391935260550989747920200521907052271749693871363240112291603941125450349715637244371138492820051059560102395890419404783465190826589608091671440235276689198916012462360967971105358817851810077942474567822079973664630079720777157004147776250886707997484323391591458946803151917449177971108779561343940518518175949603439237017335668373333594151129258397128948571452040134800129355350061046671359982305849455139190795862963647518921459883516017207943696786922457252946123867973822638196186868109036723000834080543948442768558433263315628902922412891595023609039642864992566409680276151338248952692284542564838397868863135613238005416016124211745789069486741468983879611366145392846302165693634089505534105145834084717608921011885663332741764593938086665731565430345803655616452809737771652075004221109280335978282410236563600152035366231388447816269291953594668095734122420169601196836404921149019431461800418013376739685601417539517786075521302253940427304879432320777044291147432969322633011461758433653255170485043788677789645898187741802387268534923968447070050487430074772245297435609653871066922894734188318203564359052896373250436023399169638564542365567480483150849811305245860080518077938638449550570277097833924666118424827254282431616041044677740452236832289917492482442387084006471368709186381381328765090632973634932537653693926696904995081792695668303485960532489585630328825240271175284898795174731117586390212833410501964420935715428660053761260038445054258017866899898986717688175979683039316985345083381780305578

def mtB2 : Nat :=
  33773506489637007645896830947751417851180265331228644372364518344875780168543153467881951181163862181286862698808829125290124627175686731869800874741307487965548930355266317783394240298830462487933448378572569367908179565462266594376627242036896706165965298232266834825444902647263860469080165516091875825188648710781958794987588984859700453180382178219353431089271034305083998723287183733348150441438228622618559382013764620383597058885593312774258240950679662604944697652560009591489741090435626475934666280605555195736731843666926019682589081598391160934762701154692050794442636217272039551770777689096408046771493987934781153455743049842145478093221854574186393743810311013663501714229088997284543044218674738424416385968770558136278866955777095124704735164117873905166250685503757332122564607628479344032566655939644704581548008277138690091575910290196390970376768858214919724058449339084587776718812550676528522169023778245368536626048133657549629430184060440799225701169391785264317567834528226883071807892435034067842673728492881635661593023582745385676224291324157697048429575827289853979478063252892687743854529886256153124060327221473687350266519969238003964853121962627802989864941081280485100942407377781788260385980519553818819930199438938374275704597110041637528827679932504137245089410381619775415752050116198407727659860461313118485789625295737585551627620320004898122739218546602762137095402704902124439898328009382454226227607122338919403997342627457836655912577785881737460049474636970495558073683479824398381762473355001415914823298209079466902912005781393189906894767711926072224052269127170984669585989203518786946549302630473038248835237230615396042649483021731352142638203851727985513898990983406914967220762427359730243419744990538091226168033070786769366992436808826473913210609912938229579972164363969071005685130716646011420702081420416384481288726757550236314603192767479786611776764522444376139418035330017688722194657593472817933698936411960869867356419443574657039519834751055280561855100146829203672363825831860134996443718368634795979628521856894205399876277128685891923766447379782363157353599465332586258297697961188260902953793009820214201795911764423185834510092205950855262676797488161498298653524334435216164022932227646500304276717509065131141365920796616816951569139907017662998109752663750660920737484998152455813006176361158981231790068032102898826487004770385290021323650045480836285750017093467862681663542388322378772608559897414261994736815884429750604574733498251614725672172513855578910584419130548420039229671240468021073057760357840285208319549422829443246837482820431600169157700780949354422403093037578420565471351562117466120658177697721324383724202721286454937303796836031571483014896696220232675310472367294638103805272780292281684023915331497831335716626159811129905946219257271221544692537825685211562799484075177381644990161283240409398788486135486172758805495128709566901136219865897453408380182692704805722202091617702156784707514173572772834376659601457245606310535840316216263781494922069575336130988019101044632912998335894966769237394293464411320824791805136310560436777231548601431081217224078586495854800142217139711463809728287879841465514197704647171032806105713626413370050164619062022980306906522015128612900352363424708038324992099411629643518664975552266525038327131694839879586243387751445433189473605470156862524456362518625941859233064097537391433529233717294506442018270772116543006037780174729184748853598711190216467464513403977439401168572627799625651942412164370285832383869953734322973298947097109340771240901488336975341535514335112220190013350276146318758772368322567440517531158417126927278290244362955572874462871683518938849155653148086678084653170880079148064626762945254058974602694218572177541859909245966554526961950248816009479740623005142883646682171481558803939344253423735072691027740446370402104599350470391310391971149567269350867587365874152030282052401068347176449994588253289668410666245315478900579005061610899499460753858092226090157159977023888966471310939343534302106495227958325439240274113164166804929644414645913888124856392735471881339513750468217566144794226200541507767028030553725479794100477817763753690254306923764138656292191545653842520014629674638233588037938303806827284632838384282297018824776114720045821529975457075847556025734817163304131839487802766401669664297541407219629274362821351326148586743716819088104495709460022203627184309023262398855491767699981800055250618884468080460864761907202505662059411060536721197642107108889482764981027444071665362197958771204607738235635023459578898629181282292527874880604702979012019049302611523234105212131050361508669400273969219769911272662367709021174025307116335353968598799866504519218206082554325704339008919879080475156237337957326606198376713061028285669661785989494994441561049445456802811521044021914213208480112541420367251023514608355998180289510100622809895811036822049240812369009658628415843816844626903403464028490666785875226139120165232214878960447862155287149491656772933447255092269989812503187996079285490646061728711835214649709503671389764046672815754720803609108082983725799268208736751513316847774644809493000046015162079187934953846500013574321506395544350131439330545510374057856648232545677040852151022594062956797643747235954145680667591306317596065705421137305984649975778527611050733952255796730908250050311764550327208727861600810808724255730329422514088285402594722537044648308136453695668387477493044686127545177361155088772117897654102470551749482730231839413104917298116909332179369925906916001163048282058943312039521281934398155680168735527045172224934539817316344506854306245840779987668488240919263435540105754224717989455349659657272590436010546962156119699214093591019429475933622294573359672417385737118270844339214178809065080896835343898543125407555332083892593758145879518570685095346550227312832111634374826082157819753075628595279534836940847034400018114577390146369902483091535267852010285416983

def mtC1 : Nat :=
  33773506489637007645896830947751417851180265331228644372364518344875780168543153467881951181163862181286862698808829125290124627175686731869800874741307487965548930355266317783394240298830462487933448378572569367908179565462266594376627242036896706165965298232266834825444902647263860469080165516091875825188648710781958794987588984859700453180382178219353431089271034305083998723287183733348150441438228622618559382013764620383597058885593312774258240950679662604944697652560009591489741090435626475934666280605555195736731843666926019682589081598391160934762701154692050794442636217272039551770777689096408046771493987934781153455743049842145478093221854574186393743810311013663501714229088997284543044218674738424416385968770558136278866955777095124704735164117873905166250685503757332122564607628479344032566655939644704581548008277138690091575910290196390970376768858214919724058449339084587776718812550676528522169023778245368536626048133657549629430184060440799225701169391785264317567834528226883071807892435034067842673728492881635661593023582745385676224291324157697048429575827289853979478063252892687743854529886256153124060327221473687350266519969238003964853121962627802989864941081280485100942407377781788260385980519553818819930199438938374275704597110041637528827679932504137245089410381619775415752050116198407727659860461313118485789625295737585551627620320004898122739218546602762137095402704902124439898328009382454226227607122338919403997342627457836655912577785881737460049474636970495558073683479824398381762473355001415914823298209079466902912005781393189906894767711926072224052269127170984669585989203518786946549302630473038248835237230615396042649483021731352142638203851727985513898990983406914967220762427359730243419744990538091226168033070786769366992436808826473913210609912938229579972164363969071005685130716646011420702081420416384481288726757550236314603192767479786611776764522444376139418035330017688722194657593472817933698936411960869867356419443574657039519834751055280561855100146829203672363825831860134996443718368634795979628521856894205399876277128685891923766447379782363157353599465332586258297697961188260902953793009820214201795911764423185834510092205950855262676797488161498298653524334435216164022932227646500304276717509065131141365920796616816951569139907017662998109752663750660920737484998152455813006176361158981231790068032102898826487004770385290021323650045480836285750017093467862681663542388322378772608559897414261994736815884429750604574733498251614725672172513855578910584419130548420039229671240468021073057760357840285208319549422829443246837482820431600169157700780949354422403093037578420565471351562117466120658177697721324383724202721286454937303796836031571483014896696220232675310472367294638103805272780292281684023915331497831335716626159811129905946219257271221544692537825685211562799484075177381644990161283240409398788486135486172758805495128709566901136219865897453408380182692704805722202091617702156783677094308345571117235399544465075710453048663252629348147855354417176778463912820389302707663475551882725263066757333302073651503443549909174631206113178343237539487060673053519241448808787812820321215868383601446732520363112344068677504048876457763472328789256421273319646583777789921957078543627297953521217266250546911167008414287508093401728217508030516962121849349809436902495989671229820694788735252012461465904942164973998236348365941173395861676943314005530339814468221225543713128745285389912804136483926620888869699118267892343651855985921640843839292200200539484969201390682315067732779356462444387038758640308692680186687420105220205760010699266077915285585926081005174273204397626248494722610645649731809516190794629110452160753828540427246167360940240859716814659127688036078059653162526978543367980268782589858189652322020130968664385810926052913818134192245415194334570106079462724512062090616443264667034248733483023870720452288284981871676987829453646708232803597094466343091453755962884908581521935209972123346471791735340398040608762603559538713676517476838657546184571685428947156542689933509222835736399120009838509535332006750910709042338068008914939507908496298056999948114738362610030831068784645931844095336524014200400475228504845826841771262033701596523826802270930843216772301827157423940848940838316055803304401022787482405550888120267521407031525465687449271856547333038887181027653081338528508699399310039196631172529229969100187204848741801529603124613151988333038692749383070148789162501568802667784256309400093068402609682235761179750815036136232175189311297216664832110236160105340242884584172595992605508716886048629394748285914636275824605140374108821852312603384882546266738066296379589524954610155977072253698699637765209886069729921066987985647623588772370213932584456274729406729966813279289007540814205145977870722304348783686026779983922679444259444189761958675945135457598275158295189894255979035214347840102532122539691176059028231241216112525429691649615701877639479257663425381528422677005016877654244146205473941430620773469165847828249499586544770617882005937396618850883591296062995928844679223765704168472887173859426783892047742306669564856443627642948740171035838036185454964144590355328357633522537236543032266040590446171008453927127558613749983157772687456195580068273041361929039143257578210690947689233157973578301284701203594489511267546877140599796101072695164090835900565502293341498103333560384776387246911696169771093099155840271522790239139240153473688120772585723065436101942464827384167676917782045197485302918837212690527891446742715151816943857575168831271621900373898571922054935449568622951126036225609416815656710215840456420104601893762218161462685213787476574872026652629589833149078137389006452164241050294502906629416675645245160807296246001786209036486372581185827538626304944968763135064681739639793578502349107844954204667122678217487937116708620363611194891127796309615187995090249863876923090320963118434915701684990293999498034475550104076823

def mtC2 : Nat :=
  82663673431515298878348125892076922365783069757798526784244050598313937512767946555105567842135433541961268832679564447481930064532585187162994848009574585122686978465536439186381119346285389971015664497868787229171546936942409743491868498635940684276698436506858484119070421511331132895304993849329208393304167080010636930173614624441936828135292295563718855043520888652492240787378188287948756429859678131320313149722218900291805028338565883078467138401494859521575283099145981678792121605979857514686793130943330313770376111649808959951136893973580829458877602381614555916176041877040780308989402930592924948451008392659903891078302468096510073054561268220357432569293521497131830922044988516040316696461890252658891937812137077698326841028526045017829237605777094083838852105281119467999132979162337968258864765593801439178690440189871328494739303638814863268844841313736550299766837110548953858269079978575300077403214500257399917385654509269855280076866593554001298152333401922224966669026142300705073497006787091546588638315672230373963619276949115860857537915195517971528759783091402967302621538207894751586345254545658890812158326957740026680361046254661091788809833141626179961244339817613410573958847339378373187693619441538637775379117387231005821087272257887575588666415472628576633153140593663370835676581874735924421676041910321962267240021638441198216858885623188152818149414018042869563767627928969512731857081428011617730744208084126530327493218283188330237634627043385971325726381941006315313020942714598258310683987876910665727287731188639790124681293867861646234928635170596055347748876320543460563710598217691119774835137262721653203268760315335132369835811988465882558753871413950567187950888491278778708993179769359589212223140338911648929104812059421030013898069576284523018150963896668952801120411674791778429096110671166995381822858827748143835556358862070943257843870596573540637319545893499686427023193503527501212077208886574386377910506614773834017585095571295086219028523946090089278153258661151101652418776500307460700083973906927280045011707987505449833896480127873306359431148607415078923831461270087142319684009331203361762220712446499023695587145239836507803911814882161915063108199421454462180373951176940080591277458243306990424535174590565608117888570339351020282643416147931579001026071809341119535798341882348591866021341816283858477697743453078021468501089065876249217344973525146889733762953917240334288868075485850723093607653871568457710689630971657574294402882195859207485343534840350175651994341004124212724981721578117943060373849165947808571471891508735080997298866016147935597339741326699207245466538208100666522864891933314470052847443745362970439547486838679354253152706760662870260695765537519959477479236623427719242905028476959368576490782805659127625261440007910351269462263618011075338316276799690902972302414342081963789515076393143995054867467145996471721122262153391442956285601802605476397557566559450267605107458855443216396947043236466552312718601892346433056767222165007631025666329375837184765840658676984284898489439007535391352662806494262031897013250263783539285102395455285405586348388035372015632823519802485179765492948982546612526153800948715917650443950850763563724409276334725236486125780651617723156297129367448296429400501658864742787022386577801752109777995373643436257912637333933711048378945228596862424214289259619104637366641443538704731253676073244211636412676550633624664133121478778776111533665195661274450601309176889593940105997537866071103429448805421406604198813742993998233955753216345778991410288420119110747377910893206478621845275458581206595814392549010399578388394455596558399177559012440595257880737519332053733088704345198907442504378387452888582487598736159677336669375019252418034169126276810242464452009879946391356983340052344519479660054088553061453767842109352665840972474712870381811517528648921344229102378851273254037244071546208559258016189186158802618570846122407575805735030986258251196917519792348510966228747838123198341870470991715526936441643149113847485699378420789111139857383241164952960343291754521639145070355966654445817548644348650273031627831871495744424251118353351051222881461179282505742625883322828268681808442704003090495155928716789727084061892349514338658395371297819336306263603709114744903843904591124462052342531061608033894644700791602929417769154835809424656043301921926405984733455919977169569562649687764138614136181729139101193691064746253805507687858731219097977446277929944857559114214479159089992700650344331766417996128520977707702114605234270300941059024559973626552283595879490977810574097596817932342925187862210088032263679453624373251399815432164509970923732755899633213695217078969529292889501568936211411421832673008676464711723258486764387687868195022143610469168114413816692593499503362135502793949170225772523155861923786490569333307891612009190037098908912854496416224567772506087995574471691774742094533496432215025256857202341100016144546835039088618003145675471911061031651823919108846562898430344438333412649773016774319745863312578255622591730450250454049581974952521575677756510885726227820993325710142791982262002791705187233974393058765755898055574917073353369401448705875691147668673637031620118190837133060462247401748650653817816500141693022196589991967774605824182010372414700031888464714730496618956601046353021989592591742320641287758643958518097449941404447696168491179816629429129771105998930717437864821069172069443993350771034571599696711991967256208924709477644996763434696889220399136009975669525716352049291399547346304876650638301401301618762213031777838267774121901738861940788081719129371439913104498129403320815411623744192827189151602680112510742587865501506308134080999842352934760391759277333729625584783607717610692317409767482322713453654931345215458341138477248249917257282357085856207131022595584665377353030892790299412394424181800230114513106055999290234221809887012605716481381181377152610833997359650142432360208923679629717

def M42 : Nat :=
  82663673431515298878348125892076922365783069757798526784244050598313937512767946555105567842135433541961268832679564447481930064532585187162994848009574585122686978465536439186381119346285389971015664497868787229171546936942409743491868498635940684276698436506858484119070421511331132895304993849329208393304167080010636930173614624441936828135292295563718855043520888652492240787378188287948756429859678131320313149722218900291805028338565883078467138401494859521575283099145981678792121605979857514686793130943330313770376111649808959951136893973580829458877602381614555916176041877040780308989402930592924948451008392659903891078302468096510073054561268220357432569293521497131830922044988516040316696461890252658891937812137077698326841028526045017829237605777094083838852105281119467999132979162337968258864765593801439178690440189871328494739303638814863268844841313736550299766837110548953858269079978575300077403214500257399917385654509269855280076866593554001298152333401922224966669026142300705073497006787091546588638315672230373963619276949115860857537915195517971528759783091402967302621538207894751586345254545658890812158326957740026680361046254661091788809833141626179961244339817613410573958847339378373187693619441538637775379117387231005821087272257887575588666415472628576633153140593663370835676581874735924421676041910321962267240021638441198216858885623188152818149414018042869563767627928969512731857081428011617730744208084126530327493218283188330237634627043385971325726381941006315313020942714598258310683987876910665727287731188639790124681293867861646234928635170596055347748876320543460563710598217691119774835137262721653203268760315335132369835811988465882558753871413950567187950888491278778708993179769359589212223140338911648929104812059421030013898069576284523018150963896668952801120411674791778429096110671166995381822858827748143835556358862070943257843870596573540637319545893499686427023193503527501212077208886574386377910506614773834017585095571295086219028523946090089278153258661151101652418776500307460700083973906927280045011707987505449833896480127873306359431148607415078923831461270087142319684009331203361762220712446499023695587145239836507803911814882161915063108199421454462180373951176940080591277458243306990424535174590565608117888570339351020282643416147931579001026071809341119535798341882348591866021341816283858477697743453078021468501089065876249217344973525146889733762953917240334288868075485850723093607653871568457710689630971657574294402882195859207485343534840350175651994341004124212724981721578117943060373849165947808571471891508735080997298866016147935597339741326699207245466538208100666522864891933314470052847443745362970439547486838679354253152706760662870260695765537519959477479236623427719242905028476959368576490782805659127625261440007910351269462263618011075338316276799690902972302414342081963789515076393143995054867467145996471721122262153391442956285601802605476397557566559450267605107458855443216396947043236466552312718601892346433056767222165007631025666329375837184765840658676984284898489439007535391352662806494262031897013250263783539285102395455285405586348388035372015632823519802485179765492948982546612526153800948715917650443950850763563724409276334725236486125780651617723156297129367448296429400501658864742787022386577801752109777995373643436257912637333933711048378945228596862424214289259619104637366641443538704731253676073244211636412676550633624664133121478778776111533665195661274450601309176889593940105997537866071103429448805421406604198813742993998233955753216345778991410288420119110747377910893206478621845275458581206595814392549010399578388394455596558399177559012440595257880737519332053733088704345198907442504378387452888582487598736159677336669375019252418034169126276810242464452009879946391356983340052344519479660054088553061453767842109352665840972474712870381811517528648921344229102378851273254037244071546208559258016189186158802618570846122407575805735030986258251196917519792348510966228747838123198341870470991715526936441643149113847485699378420789111139857383241164952960343291754521639145070355966654445817548644348650273031627831871495744424251118353351051222881461179282505742625883322828268681808442704003090495155928716789727084061892349514338658395371297819336306263603709114744903843904591124462052342531061608033894644700791602929417769154835809424656043301921926405984733455919977169569562649687764138614136181729139101193691064746253805507687858731219097977446277929944857559114214479159089992700650344331766417996128520977707702114605234270300941059024559973626552283595879490977810574097596817932342925187862210088032263679453624373251399815432164509970923732755899633213695217078969529292889501568936211411421832673008676464711723258486764387687868195022143610469168114413816692593499503362135502793949170225772523155861923786490569333307891612009190037098908912854496416224567772506087995574471691774742094533496432215025256857202341100016144546835039088618003145675471911061031651823919108846562898430344438333412649773016774319745863312578255622591730450250454049581974952521575677756510885726227820993325710142791982262002791705187233974393058765755898055574917073353369401448705875691147668673637031620118190837133060462247401748650653817816500141693022196589991967774605824182010372414700031888464714730496618956601046353021989592591742320641287758643958518097449941404447696168491179816629429129771105998930717437864821069172069443993350771034571599696711991967256208924709477644996763434696889220399136009975669525716352049291399547346304876650638301401301618762213031777838267774121901738861940788081719129371439913104498129403320815411623744192827189151602680112510742587865501506308134080999842352934760391759277333729625584783607717610692317409767482322713453654931345215458341138477248249917257282357085856207131022595584665377353030892790299412394424181800230114513106055999290234221809887012605716481381181377152610833997359650142432360208921996034048

def mtT1 : Nat :=
  82663673431515298878348125892076922365783069757798526784244050598313937512767946555105567842135433541961268832679564447481930064532585187162994848009574585122686978465536439186381119346285389971015664497868787229171546936942409743491868498635940684276698436506858484119070421511331132895304993849329208393304167080010636930173614624441936828135292295563718855043520888652492240787378188287948756429859678131320313149722218900291805028338565883078467138401494859521575283099145981678792121605979857514686793130943330313770376111649808959951136893973580829458877602381614555916176041877040780308989402930592924948451008392659903891078302468096510073054561268220357432569293521497131830922044988516040316696461890252658891937812137077698326841028526045017829237605777094083838852105281119467999132979162337968258864765593801439178690440189871328494739303638814863268844841313736550299766837110548953858269079978575300077403214500257399917385654509269855280076866593554001298152333401922224966669026142300705073497006787091546588638315672230373963619276949115860857537915195517971528759783091402967302621538207894751586345254545658890812158326957740026680361046254661091788809833141626179961244339817613410573958847339378373187693619441538637775379117387231005821087272257887575588666415472628576633153140593663370835676581874735924421676041910321962267240021638441198216858885623188152818149414018042869563767627928969512731857081428011617730744208084126530327493218283188330237634627043385971325726381941006315313020942714598258310683987876910665727287731188639790124681293867861646234928635170596055347748876320543460563710598217691119774835137262721653203268760315335132369835811988465882558753871413950567187950888491278778708993179769359589212223140338911648929104812059421030013898069576284523018150963896668952801120411674791778429096110671166995381822858827748143835556358862070943257843870596573540637319545893499686427023193503527501212077208886574386377910506614773834017585095571295086219028523946090089278153258661151101652418776500307460700083973906927280045011707987505449833896480127873306359431148607415078923831461270087142319684009331203361762220712446499023695587145239836507803911814882161915063108199421454462180373951176940080591277458243306990424535174590565608117888570339351020282643416147931579001026071809341119535798341882348591866021341816283858477697743453078021468501089065876249217344973525146889733762953917240334288868075485850723093607653871568457710689630971657574294402882195859207485343534840350175651994341004124212724981721578117943060373849165947808571471891508735080997298866016147935597339741326699207245466538208100666522864891933314470052847443745362970439547486838679354253152706760662870260695765537519959477479236623427719242905028476959368576490782805659127625261440007910351269462263618011075338316276799690902972302414342081963789515076393143995054867467145996471721122262153391442956285601802605476397557566559450267605107458855443216396947043236466552312616079116622777769647931266284811643913430408286873214835668460236977217616098949286201334160373198571413523055912071273440252367588644174968055184158884620294122290583596395685231112253354682224402898635545159345093757345074700402032738956276954166220288319993873423218181780195811285956207899043138591059985688473431543110079858721832801057486162924337533131334378258032468951188629780320355555178385830318935128598716350351421920622899477466528358298322765131176627624028081569238242756918125495013174976632126829680537138500943022577900588731855127947502296378788222752467419814835235477699717461518540128491143144882399140437678278547026649520820239561086454958223301823181513287654669040402693442579667012186050489590711405450600115118021215938573010843532582917032338136784236001156684532504894941692923433517288627692032805061570955319443110640659270638719496922336776982558881266135358642866753511778041234785287880139953884604095297043477944967674319356021479506869683011295129365053981323764859594783811191821481346077888282699994399570270624675270865490454662904002867228160765476780408468721656898900895374662477470392119662348990762333356827356252296233704042957767998870269786185329263499178513970690748979507385868657217861767331599691573517022703412450033859496607840034491117435910469779852742012788915174578024761769263754086117311831630013490448968512205016538102843019036370780411291049748806110969005627412772578667176272224896053547679309834339180072910963951993726723548221626820147683554434135704760133075826027932744153915464448429378983807947340522307680169967408082558805093637414897603062164774534655961288799666090778989420365506777515048273421575599800303369804312167721329726812938370506784816220994411865994463675816269314743207623433615455498010281452210484682864161359029905003959827851516303704376395337025461562093765667540455368392748810517808054072696802412563109728756114646506241686041250369132773199567316748518846554481155994052616913977383453548804593076394535159247699180896456758806659719106753405511175243836446368386311625859224879579319596891890577128725283324716307872880093992134201902177525488391617094907239358729749491529729994726375472654941206140818831912181927623202101412541209212609213110600193855840452757258993264831153692005746394922257116831753344599384303536881471787210708995652103074438856714715036540345139066820046436720202608007058192123879975164342841574457019130176299072306637928372529270339387624211965443616631840022986558770099305077862516710670589024920479520210795685768302754727194314175246586174240114322288196286509439640216002989149463069417624747976663346177537030368616133354642174059552910367739048852305911305046193506011363101152309073418470164198438809928507411707158260639287798382078059722576231341137442046946915965872849399439718077829997174537522746240975618595794203752557666175978491467402386779820975396820654045834360652341319901246208160127671700128607780704244214475381846339937470846123173488634526209107357

def TW42 : Nat :=
  23286412696272796128385897882899802046735748944147304095586925937806345412490055899989764787484019671778376362860042742494792413992016635194480038477926904958899144614039557626716988148046858795729988411355407357548889190298165282191259573451220739704130358456492366200248883967389173812742747365951504723827523001491684280272471146320539623073306718256054486728666524616861157674570314020673215994879601644468493397565948697625971234773093914841101193534975382259956342285658764551397402609057923396101053639833475318217931762856992618905368851508431145636474930815718376354884170331578353645378352602708588674621094947420057719398999411780746413367716750015272006187870701685896805295225270884333726677135807614285840605691082136490217584185163901883278716870542932408492276006934865950227228102565619591461173805522792331549657987608467832953423202739185593471886873026513156423612104712278866544088995443062358275943090013331027296613716195131399476645881603863139798632036678923865823483738444232435763768448564749145225791584554176552634074674452371087255094700183545843401961001081364543762853499747092448068502508107593222630087591092190301278596492271084561527815914631099970271527741341154498636817887954386114857723617590227434680446936190223263833291945243787167247149965989045571619886692880836576710444656652995794686726592702042909876779011822418497887649544399191573617662283988123334351033491691796060980506833548165946249816500531072975720101201148937385795784874674629915552672362617383321719837739429255985286112730811702868712409941153617174075894697487470068453019650904234526005029575161998672416784142896346487246864102740666523927113249728893342584950081500666413223075139020834369395133027522567192339447474603437176136121429942424113503165651764463838168080640665909102853392454355233594720929998804403108112539299819964006223882881356867663239923365640981086766641761515297600657027403195393633240963358398367554981774333956721216433851233514169545306034533986830036116585909294995659056896975306339311913500665920155125378855507762655484458244595756571073270346554631189797527287186906544490192119811857340633612822753313718241274967409117961253011924109326791253319825904752833477351536518342894139189453000956528443747216037073273671221727149026146344923908052024457850500041663850036624099467140232474787791721045655918272563736783264349783782731035180013699315093809364598771418606152417216097180548070943269883902267891435223805520989936607956077030220406868186637122337732751075798983567883250427889753615936024670428353008364175599230073860307230172879655230697897043531116402063962476243553472520178188319041538472605912360815622740862670090705068958399109665958228000669173533293354031463386330625667331834652998204824593734638096670793318709992279933082510076752228441866820292945328046102660857229395046334118857136097623449515342034623405425867640111085158005212708735355617504106639713612663723609468506576502149805431988349667888873766989901288124552226611709923696250483328623879467458940304767010528851526461680464236857867452516372589555536686351943179251598160839013012754338815351828372760694583523004453931120329908535994740543763938877977565925800314656356696314860778451301506104495553626674880902354234676963699516108316781033383469889699857398909924439587768695698940339121265261182049269862323764164620756114931585764507820465988192520691623426751401040549597714182200371618208025688973739685384513159399246575377965130891355864446900081101970162893944424756304632423169527481380468427896112720572741216587451395016309850851716420910424598867183019891667575692338585798842294879764817624284278219752523075007123801771903544143700812217310189752937873050113077832258306963562783905735500410546365130101854524919763983206841661367311933478527235156747173998039831748914357363958110023707346171262306842031879110841956153517301114814498515955290074819480993346943212015103100760064168814481550228857878687402486979821435808498704365332158722439149640862842872882305330515624683825889267770073780313093413628761960362785040821728222505917783150425670125466259757911832197125032317718132586927606140166614064453023155532373325035480075314560955164947539185016274212676845349939602719662779258735428274936191714345440299139674205179154738197015510172791710203374566887642266846822627516487759168535594197497712130627077690751420191390629676160138980402797289454242465323821263625442908510948053173773364784462190015868242922154187553627666329911751351367348284498478120355294318548190303313515398623542186825776853395891044485977185103856118630981012292810712210549436275409396561870155846749587968794410401406019592329092419797227756782883858425304340820553674101561825316271266907187479993228490833649511261948282000516355287224823701849161267658147453894622022555465564762662747236105306321164736124720441242391728630986300587810210103304386380987562148870746821955948349781742619760301217033615854063564504285773784578046390044993424643195844511653552226479317239373745300979133210860741015056170308196753896425575987365318209291810315853192469645196632559351154607507854083767429091321860317918982658720636329449846124447523343709157747028570593657907691799462999122224604858032462813412226252078689141167619669763888992450090791106235260761711380574332201438891412838064418792597077561185245612725179349795162598851806363347610022835261658434149733138082336066926500349361306074639508348727036183048346134974496623934852669861527034319363078321856867189640763771583180654524431393492146361864683494027463236383483141406826227013984680097735659500624881852509349301241846631761364507936910779621552262902646323469016683886689777023536772873711539455067644624234633639728370672550427760649707901418501965312729024468387284203044930930023127659691566401597503825305682639201612517425907130819996089253534756782958389002918536303215296996060899872406077485717625280433555794517966049296080338486659354725358640798081366344678683170445274787496285617840986482077

/-! ## Properties

Definitions used to state the verified properties of the generator. -/

/-- Total byte length of a list of rows. -/
def sumBytes (l : List String) : Nat := (l.map utf8Len).sum

/-- The header without its newline: the first line of every output file. -/
def headLine : String := "employee_id,name,department,salary,hire_date"

/-- A string usable as an unquoted CSV field: free of commas and newlines. -/
def csvField (s : String) : Bool := s.data.all fun c => c != ',' && c != '\n'

/-- Validity of the calendar date the generator derives from ordinal `o`:
its year lies in 2010..2024, its month and day are a real date of that
month (leap years included), converting it back with `toordinal` returns
`o`, and its ISO text is exactly 10 characters (`YYYY-MM-DD`). -/
def dateOk (o : Nat) : Bool :=
  match ord2ymd o with
  | (y, m, d) =>
    decide (2010 ≤ y) && decide (y ≤ 2024) && decide (1 ≤ m) && decide (m ≤ 12) &&
      decide (1 ≤ d) &&
      decide (d ≤ DAYS_IN_MONTH.getD m 0 + (if m = 2 ∧ isLeap y then 1 else 0)) &&
      decide (ymd2ord y m d = o) && decide ((isoDate o).length = 10)

/-- Shape of the `id`-th generated row: five comma-separated fields, the
first the decimal id, the second a first and last name from the fixed
pools, the third a department from the fixed pool, the fourth a salary in
45000..220000, the fifth the ISO date of an ordinal between 2010-01-01 and
2024-12-31 that denotes a valid calendar date. -/
def RowOk (id : Nat) (s : String) : Prop :=
  ∃ fn ln dp sal o,
    fn ∈ FIRST_NAMES ∧ ln ∈ LAST_NAMES ∧ dp ∈ DEPARTMENTS ∧
    45000 ≤ sal ∧ sal ≤ 220000 ∧
    DATE_START ≤ o ∧ o ≤ DATE_END ∧ dateOk o = true ∧
    s = Nat.repr id ++ "," ++ fn ++ " " ++ ln ++ "," ++ dp ++ "," ++
      Nat.repr sal ++ "," ++ isoDate o ++ "\n"

/-- Row `k` (0-based) of the file is a well-formed row with id `k + 1`. -/
def RowsOk (rows : List String) : Prop :=
  ∀ k (h : k < rows.length), RowOk (k + 1) (rows.get ⟨k, h⟩)

/-- Number of data rows the run accepted. -/
def rowCount (st : GenState) : Nat := st.rows.length

/-- Bytes durably on disk plus bytes held in the application buffer. -/
def diskPlusBuf (st : GenState) : Nat := st.flushedLen + st.bufBytes

/-- A line that splits into exactly five comma-separated fields: four
commas separate five comma-free, newline-free fields, and the line ends
with the only newline. -/
def FiveFields (s : String) : Prop :=
  ∃ f1 f2 f3 f4 f5,
    csvField f1 = true ∧ csvField f2 = true ∧ csvField f3 = true ∧
    csvField f4 = true ∧ csvField f5 = true ∧
    s = f1 ++ "," ++ f2 ++ "," ++ f3 ++ "," ++ f4 ++ "," ++ f5 ++ "\n"

/-- The first line of a string: its characters up to the first newline. -/
def firstLine (s : String) : String :=
  String.mk (s.data.takeWhile fun c => c != '\n')

/-- Bounded conjunction of `dateOk` over `n` consecutive ordinals starting
at `lo`; lets the kernel check the whole hire-date range in chunks. -/
def dateOkRange (lo : Nat) : Nat → Bool
  | 0 => true
  | n + 1 => dateOk lo && dateOkRange (lo + 1) n

/-- The loop exited by itself (`done` or an inner rejection-fuel abort)
rather than by exhausting the iteration fuel. -/
def LoopRes.terminated : LoopRes → Bool
  | .fuelOut => false
  | _ => true

/-- Invariant of the loop head, satisfied by `initState` and preserved by
every iteration: the bytes sent to the file plus the application buffer
are the header plus the accepted rows; the on-disk size is 0 while only
the header has been written and otherwise equals everything written; the
buffered-byte counter matches the buffer; the accepted rows fit in
`max B 0` bytes; ids and the call counter track the accepted rows; the
rows are well formed; and every observed loop head satisfied the
amended disk-plus-buffer bound and, for a positive threshold, had a
buffer below the threshold. -/
structure Inv (B F : Int) (st : GenState) : Prop where
  hw : st.written ++ String.join st.buf = header ++ String.join st.rows
  hflush : (st.flushedLen = 0 ∧ st.written = header) ∨ st.flushedLen = utf8Len st.written
  hbuf : st.bufBytes = sumBytes st.buf
  hsum : sumBytes st.rows ≤ B.toNat
  hi : st.i = st.rows.length + 1
  hcalls : st.calls = st.rows.length
  hrows : RowsOk st.rows
  htops : ∀ p ∈ st.tops, (p.1 + p.2 ≤ B.toNat + 45) ∧ (1 ≤ F → (p.2 : Int) < F)
  htop : 1 ≤ F → (st.bufBytes : Int) < F

/-- What holds of the final state a run returns: the file is the header
followed by the accepted rows; the buffer was flushed (or was empty);
ids and the call counter account for every accepted row plus the one
discarded candidate; the accepted rows fit in `max B 0` bytes; the
discarded candidate would have pushed the final size past `B`; every loop
head satisfied the amended bound; and the on-disk size never exceeds what
was written. -/
structure Final (B F : Int) (st : GenState) : Prop where
  hw : st.written = header ++ String.join st.rows
  hbufE : st.buf = []
  hbb : st.bufBytes = 0
  hi : st.i = st.rows.length + 1
  hcalls : st.calls = st.rows.length + 1
  hrows : RowsOk st.rows
  hsum : sumBytes st.rows ≤ B.toNat
  hrej : ∃ r, st.rejected = some r ∧ (utf8Len st.written : Int) + (r : Int) > B
  htops : ∀ p ∈ st.tops, (p.1 + p.2 ≤ B.toNat + 45) ∧ (1 ≤ F → (p.2 : Int) < F)
  hfl : st.flushedLen ≤ utf8Len st.written

/-- Outcome predicate for the loop: a completed run satisfies `Final`;
aborts (inner rejection fuel, iteration fuel) carry no claim. -/
def ResOk (B F : Int) : LoopRes → Prop
  | .done st => Final B F st
  | _ => True


/-! ## Fully evaluated final states of concrete runs

Each constant is the final state of one concrete run of the generator, as
proved by the kernel below (`runEq45`, `runEq47`, `runEq45F1`, `runEq500`).
`runStA` is shared by targets 45 and 47: both accept exactly the first
seed-42 row. -/

def runStA : GenState :=
  ⟨"employee_id,name,department,salary,hire_date\n1,Victor Kim,Engineering,117097,2015-06-30\n",
   88, [], 0, 2, ⟨TW42, 15⟩,
   ["1,Victor Kim,Engineering,117097,2015-06-30\n"],
   [(0, 0), (0, 43)], 2, some 38⟩

def runStB : GenState :=
  ⟨"employee_id,name,department,salary,hire_date\n1,Victor Kim,Engineering,117097,2015-06-30\n",
   88, [], 0, 2, ⟨TW42, 15⟩,
   ["1,Victor Kim,Engineering,117097,2015-06-30\n"],
   [(0, 0), (88, 0)], 2, some 38⟩

def runStC : GenState :=
  ⟨"employee_id,name,department,salary,hire_date\n1,Victor Kim,Engineering,117097,2015-06-30\n2,Henry Smith,Sales,187964,2011-12-14\n3,Tina Hernandez,Engineering,52811,2012-02-07\n4,Grace Nguyen,Engineering,192127,2014-06-17\n5,Xavier Thomas,Support,102787,2020-01-28\n6,Tina Chen,Engineering,86853,2019-06-25\n7,Liam Chen,Marketing,101443,2017-07-20\n8,David Lee,Support,70353,2018-01-19\n9,Mia Moore,HR,56390,2020-04-21\n10,Sam Kim,Support,65656,2022-05-20\n11,Jack Moore,Product,196349,2014-04-25\n12,Xavier Lee,Engineering,218346,2015-02-10\n",
   529, [], 0, 13, ⟨TW42, 93⟩,
   ["1,Victor Kim,Engineering,117097,2015-06-30\n",
    "2,Henry Smith,Sales,187964,2011-12-14\n",
    "3,Tina Hernandez,Engineering,52811,2012-02-07\n",
    "4,Grace Nguyen,Engineering,192127,2014-06-17\n",
    "5,Xavier Thomas,Support,102787,2020-01-28\n",
    "6,Tina Chen,Engineering,86853,2019-06-25\n",
    "7,Liam Chen,Marketing,101443,2017-07-20\n",
    "8,David Lee,Support,70353,2018-01-19\n",
    "9,Mia Moore,HR,56390,2020-04-21\n",
    "10,Sam Kim,Support,65656,2022-05-20\n",
    "11,Jack Moore,Product,196349,2014-04-25\n",
    "12,Xavier Lee,Engineering,218346,2015-02-10\n"],
   [(0, 0), (0, 43), (0, 81), (0, 127), (0, 172), (0, 214), (0, 255), (0, 295),
    (0, 332), (0, 364), (0, 400), (0, 440), (0, 484)],
   13, some 37⟩

/-- Final state of the run with target 0 (any budget below the header
size behaves alike): the header is still written, no data rows. -/
def runStD : GenState :=
  ⟨"employee_id,name,department,salary,hire_date\n",
   0, [], 0, 1, ⟨TW42, 6⟩, [], [(0, 0)], 1, some 43⟩

/-! ## Theorems -/

theorem utf8Len_append (a b : String) : utf8Len (a ++ b) = utf8Len a + utf8Len b := by
  simp [utf8Len, String.data_append]

/-! ### Splitting the seeding loops into kernel-sized chunks -/

theorem initGenrandFrom_add (a b mt i : Nat) :
    initGenrandFrom mt i (a + b) = initGenrandFrom (initGenrandFrom mt i a) (i + a) b := by
  induction a generalizing mt i with
  | zero => simp [initGenrandFrom]
  | succ n ih =>
      rw [show n + 1 + b = (n + b) + 1 by omega]
      simp only [initGenrandFrom]
      rw [ih]
      congr 1
      omega

theorem ibaLoop1_add (key : List Nat) (a b mt i j : Nat) :
    ibaLoop1 key mt i j (a + b) =
      ibaLoop1 key (ibaLoop1 key mt i j a).1 (ibaLoop1 key mt i j a).2.1
        (ibaLoop1 key mt i j a).2.2 b := by
  induction a generalizing mt i j with
  | zero => simp [ibaLoop1]
  | succ n ih =>
      rw [show n + 1 + b = (n + b) + 1 by omega]
      simp only [ibaLoop1]
      rw [ih]

theorem ibaLoop2_add (a b mt i : Nat) :
    ibaLoop2 mt i (a + b) = ibaLoop2 (ibaLoop2 mt i a).1 (ibaLoop2 mt i a).2 b := by
  induction a generalizing mt i with
  | zero => simp [ibaLoop2]
  | succ n ih =>
      rw [show n + 1 + b = (n + b) + 1 by omega]
      simp only [ibaLoop2]
      rw [ih]

theorem twistFrom_add (a b mt kk : Nat) :
    twistFrom mt kk (a + b) = twistFrom (twistFrom mt kk a) (kk + a) b := by
  induction a generalizing mt kk with
  | zero => simp [twistFrom]
  | succ n ih =>
      rw [show n + 1 + b = (n + b) + 1 by omega]
      simp only [twistFrom]
      rw [ih]
      congr 1
      omega
set_option maxRecDepth 40000 in
theorem igA1 : initGenrandFrom 19650218 1 312 = mtA1 := by rfl

set_option maxRecDepth 40000 in
theorem igA2 : initGenrandFrom mtA1 313 311 = mtA2 := by rfl

theorem ig_full : initGenrand 19650218 = mtA2 := by
  have h0 : (19650218 : Nat) % U32 = 19650218 := by rfl
  rw [initGenrand, h0, show (623 : Nat) = 312 + 311 from rfl, initGenrandFrom_add, igA1]
  exact igA2

set_option maxRecDepth 40000 in
theorem ibB1 : ibaLoop1 [42] mtA2 1 0 312 = (mtB1, 313, 0) := by rfl

set_option maxRecDepth 40000 in
theorem ibB2 : ibaLoop1 [42] mtB1 313 0 312 = (mtB2, 2, 0) := by rfl

theorem ibB : ibaLoop1 [42] mtA2 1 0 624 = (mtB2, 2, 0) := by
  rw [show (624 : Nat) = 312 + 312 from rfl, ibaLoop1_add, ibB1]
  exact ibB2

set_option maxRecDepth 40000 in
theorem ibC1 : ibaLoop2 mtB2 2 312 = (mtC1, 314) := by rfl

set_option maxRecDepth 40000 in
theorem ibC2 : ibaLoop2 mtC1 314 311 = (mtC2, 2) := by rfl

theorem ibC : ibaLoop2 mtB2 2 623 = (mtC2, 2) := by
  rw [show (623 : Nat) = 312 + 311 from rfl, ibaLoop2_add, ibC1]
  exact ibC2

/-- Fully evaluated seeded state for seed 42, equal to CPython's
`random.Random(42).getstate()`. -/
theorem mt42 : mtOfSeed 42 = ⟨M42, 624⟩ := by
  have hk : seedKey 42 = [42] := by rfl
  rw [mtOfSeed, hk, initByArray, show max 624 (List.length [42]) = 624 from rfl, ig_full, ibB]
  show MTState.mk (mtSet (ibaLoop2 mtB2 2 623).1 0 2147483648) 624 = _
  rw [ibC]
  rfl

set_option maxRecDepth 40000 in
theorem twA1 : twistFrom M42 0 312 = mtT1 := by rfl

set_option maxRecDepth 40000 in
theorem twA2 : twistFrom mtT1 312 312 = TW42 := by rfl

/-- Fully evaluated first twist of the seed-42 state. -/
theorem tw42 : twist M42 = TW42 := by
  rw [twist, show (624 : Nat) = 312 + 312 from rfl, twistFrom_add, twA1]
  exact twA2
/-! ### Pushing the first twist through the seeded state

The first `genrand_uint32` call on a freshly seeded state (index 624)
twists and then reads word 0; these lemmas let a concrete run start from
the pre-twisted state `TW42` instead of re-twisting inside the kernel. -/

theorem genrand_pretwist (M : Nat) : genrandUInt32 ⟨M, 624⟩ = genrandUInt32 ⟨twist M, 0⟩ := by
  simp [genrandUInt32]

theorem getrandbits_pretwist (k M : Nat) :
    getrandbits k ⟨M, 624⟩ = getrandbits k ⟨twist M, 0⟩ := by
  simp only [getrandbits, genrand_pretwist]

theorem randbelow_pretwist (n fuel M : Nat) :
    randbelow n (fuel + 1) ⟨M, 624⟩ = randbelow n (fuel + 1) ⟨twist M, 0⟩ := by
  simp only [randbelow]
  rw [getrandbits_pretwist]

theorem randbelow_rb_pretwist (n M : Nat) :
    randbelow n rbFuel ⟨M, 624⟩ = randbelow n rbFuel ⟨twist M, 0⟩ := by
  rw [show rbFuel = 63 + 1 from rfl]
  exact randbelow_pretwist n 63 M

theorem choice_pretwist (l : List String) (M : Nat) :
    choice l ⟨M, 624⟩ = choice l ⟨twist M, 0⟩ := by
  simp only [choice]
  rw [randbelow_rb_pretwist]

theorem make_row_pretwist (i M : Nat) :
    make_row i ⟨M, 624⟩ = make_row i ⟨twist M, 0⟩ := by
  simp only [make_row]
  rw [choice_pretwist]

theorem loopN_rng (B F : Int) (fuel : Nat) (w : String) (fl : Nat) (bf : List String)
    (bb i : Nat) (rng r2 : MTState) (rows : List String) (tops : List (Nat × Nat))
    (calls : Nat) (rej : Option Nat)
    (h : make_row i rng = make_row i r2) :
    loopN B F (fuel + 1) ⟨w, fl, bf, bb, i, rng, rows, tops, calls, rej⟩ =
      loopN B F (fuel + 1) ⟨w, fl, bf, bb, i, r2, rows, tops, calls, rej⟩ := by
  simp only [loopN]
  rw [h]
/-! ### Kernel-evaluated concrete runs -/

set_option maxRecDepth 100000 in
/-- Seed 42, target 45 bytes (the header's exact size), flush threshold
4096: the run accepts one data row because `os.path.getsize` still reads 0
while the header sits unflushed in the file object's buffer. -/
theorem runEq45 : genRun 45 4096 42 = some runStA := by
  have hseed : initState 42 = ⟨header, 0, [], 0, 1, ⟨M42, 624⟩, [], [], 0, none⟩ := by
    rw [initState, mt42]
  have hstep : loopN 45 4096 (46 + 1) (⟨header, 0, [], 0, 1, ⟨M42, 624⟩, [], [], 0, none⟩ : GenState)
      = loopN 45 4096 (46 + 1) ⟨header, 0, [], 0, 1, ⟨TW42, 0⟩, [], [], 0, none⟩ := by
    have h := loopN_rng 45 4096 46 header 0 [] 0 1 ⟨M42, 624⟩ ⟨twist M42, 0⟩ [] [] 0 none
      (make_row_pretwist 1 M42)
    rw [tw42] at h
    exact h
  unfold genRun runLoop
  conv_lhs => rw [hseed, show runFuel 45 = 46 + 1 from rfl, hstep]
  rfl
set_option maxRecDepth 100000 in
/-- Seed 42, target 47 bytes, flush threshold 4096: same final state as
target 45 — one 43-byte row is accepted against an on-disk size of 0. -/
theorem runEq47 : genRun 47 4096 42 = some runStA := by
  have hseed : initState 42 = ⟨header, 0, [], 0, 1, ⟨M42, 624⟩, [], [], 0, none⟩ := by
    rw [initState, mt42]
  have hstep : loopN 47 4096 (48 + 1) (⟨header, 0, [], 0, 1, ⟨M42, 624⟩, [], [], 0, none⟩ : GenState)
      = loopN 47 4096 (48 + 1) ⟨header, 0, [], 0, 1, ⟨TW42, 0⟩, [], [], 0, none⟩ := by
    have h := loopN_rng 47 4096 48 header 0 [] 0 1 ⟨M42, 624⟩ ⟨twist M42, 0⟩ [] [] 0 none
      (make_row_pretwist 1 M42)
    rw [tw42] at h
    exact h
  unfold genRun runLoop
  conv_lhs => rw [hseed, show runFuel 47 = 48 + 1 from rfl, hstep]
  rfl

set_option maxRecDepth 100000 in
/-- Seed 42, target 45 bytes, flush threshold 1: the accepted row is
flushed at once (second observation point `(88, 0)`), and the loop then
stops with the file already over the target. -/
theorem runEq45F1 : genRun 45 1 42 = some runStB := by
  have hseed : initState 42 = ⟨header, 0, [], 0, 1, ⟨M42, 624⟩, [], [], 0, none⟩ := by
    rw [initState, mt42]
  have hstep : loopN 45 1 (46 + 1) (⟨header, 0, [], 0, 1, ⟨M42, 624⟩, [], [], 0, none⟩ : GenState)
      = loopN 45 1 (46 + 1) ⟨header, 0, [], 0, 1, ⟨TW42, 0⟩, [], [], 0, none⟩ := by
    have h := loopN_rng 45 1 46 header 0 [] 0 1 ⟨M42, 624⟩ ⟨twist M42, 0⟩ [] [] 0 none
      (make_row_pretwist 1 M42)
    rw [tw42] at h
    exact h
  unfold genRun runLoop
  conv_lhs => rw [hseed, show runFuel 45 = 46 + 1 from rfl, hstep]
  rfl

set_option maxRecDepth 400000 in
/-- Seed 42, target 500 bytes, flush threshold 4096 — the spec's
end-to-end example: twelve rows are accepted and the final file is 529
bytes. -/
theorem runEq500 : genRun 500 4096 42 = some runStC := by
  have hseed : initState 42 = ⟨header, 0, [], 0, 1, ⟨M42, 624⟩, [], [], 0, none⟩ := by
    rw [initState, mt42]
  have hstep : loopN 500 4096 (501 + 1) (⟨header, 0, [], 0, 1, ⟨M42, 624⟩, [], [], 0, none⟩ : GenState)
      = loopN 500 4096 (501 + 1) ⟨header, 0, [], 0, 1, ⟨TW42, 0⟩, [], [], 0, none⟩ := by
    have h := loopN_rng 500 4096 501 header 0 [] 0 1 ⟨M42, 624⟩ ⟨twist M42, 0⟩ [] [] 0 none
      (make_row_pretwist 1 M42)
    rw [tw42] at h
    exact h
  unfold genRun runLoop
  conv_lhs => rw [hseed, show runFuel 500 = 501 + 1 from rfl, hstep]
  rfl
/-! ### Byte-length and join lemmas -/

theorem utf8Len_join_cons (l : List String) (acc : String) :
    utf8Len (List.foldl (· ++ ·) acc l) = utf8Len acc + sumBytes l := by
  induction l generalizing acc with
  | nil => simp [sumBytes]
  | cons x xs ih => simp [List.foldl, ih, sumBytes, utf8Len_append]; omega

theorem utf8Len_join (l : List String) : utf8Len (String.join l) = sumBytes l := by
  have h := utf8Len_join_cons l ""
  simpa [String.join, utf8Len] using h

theorem sumBytes_append (l1 l2 : List String) :
    sumBytes (l1 ++ l2) = sumBytes l1 + sumBytes l2 := by
  simp [sumBytes]

theorem join_append_single (l : List String) (r : String) :
    String.join (l ++ [r]) = String.join l ++ r := by
  simp [String.join]

theorem append_empty_str (s : String) : s ++ "" = s := by
  apply String.ext
  simp [String.data_append]

/-! ### Specifications of the RNG helpers -/

theorem randbelow_lt (n : Nat) : ∀ (fuel : Nat) (s : MTState) (r : Nat) (s1 : MTState),
    randbelow n fuel s = some (r, s1) → r < n := by
  intro fuel
  induction fuel with
  | zero => intro s r s1 h; simp [randbelow] at h
  | succ m ih =>
      intro s r s1 h
      rcases hg : getrandbits (bitLength n) s with ⟨r0, s0⟩
      simp only [randbelow, hg] at h
      by_cases hlt : r0 < n
      · rw [if_pos hlt] at h
        simp only [Option.some.injEq, Prod.mk.injEq] at h
        obtain ⟨h1, h2⟩ := h
        omega
      · rw [if_neg hlt] at h
        exact ih _ _ _ h

theorem choice_mem (l : List String) (s : MTState) (x : String) (s1 : MTState)
    (h : choice l s = some (x, s1)) : x ∈ l := by
  simp only [choice, Option.map_eq_some'] at h
  obtain ⟨p, hp, he⟩ := h
  have hlt := randbelow_lt l.length rbFuel s p.1 p.2 (by rw [hp])
  have hx : l.getD p.1 "" = x := by
    simpa using congrArg Prod.fst he
  rw [← hx, List.getD_eq_getElem l _ hlt]
  exact List.getElem_mem hlt

theorem randint_bounds (a b : Nat) (s : MTState) (v : Nat) (s1 : MTState)
    (h : randint a b s = some (v, s1)) : a ≤ v ∧ v ≤ a + (b + 1 - a) - 1 := by
  simp only [randint, Option.map_eq_some'] at h
  obtain ⟨p, hp, he⟩ := h
  have hlt := randbelow_lt (b + 1 - a) rbFuel s p.1 p.2 (by rw [hp])
  have hv : a + p.1 = v := by
    simpa using congrArg Prod.fst he
  omega

/-! ### Digits, fields and dates -/

theorem digitChar_csv (m : Nat) (hm : m < 10) :
    (Nat.digitChar m != ',' && Nat.digitChar m != '\n') = true := by
  interval_cases m <;> rfl

theorem toDigitsCore_csv (fuel : Nat) : ∀ (n : Nat) (ds : List Char),
    (ds.all fun c => c != ',' && c != '\n') = true →
    ((Nat.toDigitsCore 10 fuel n ds).all fun c => c != ',' && c != '\n') = true := by
  induction fuel with
  | zero => intro n ds h; simpa [Nat.toDigitsCore] using h
  | succ m ih =>
      intro n ds h
      have hd : ((Nat.digitChar (n % 10) :: ds).all fun c => c != ',' && c != '\n') = true := by
        simp only [List.all_cons]
        rw [digitChar_csv (n % 10) (Nat.mod_lt n (by norm_num)), h]
        rfl
      by_cases hz : n / 10 = 0
      · simpa [Nat.toDigitsCore, hz] using hd
      · simpa [Nat.toDigitsCore, hz] using ih (n / 10) _ hd

theorem csvField_repr (n : Nat) : csvField (Nat.repr n) = true := by
  rw [Nat.repr.eq_def]
  show ((Nat.toDigits 10 n).asString.data.all fun c => c != ',' && c != '\n') = true
  rw [Nat.toDigits]
  have : (Nat.toDigitsCore 10 (n + 1) n []).asString.data = Nat.toDigitsCore 10 (n + 1) n [] := by
    simp [List.asString]
  rw [this]
  exact toDigitsCore_csv (n + 1) n [] (by simp)

theorem csvField_append (a b : String) :
    csvField (a ++ b) = (csvField a && csvField b) := by
  simp [csvField, String.data_append, List.all_append]

theorem csvField_replicate_zero (k : Nat) :
    csvField (String.mk (List.replicate k '0')) = true := by
  simp [csvField, List.all_eq_true]

theorem csvField_pad (w n : Nat) : csvField (pad w n) = true := by
  rw [pad, csvField_append, csvField_replicate_zero, csvField_repr]
  rfl

theorem csvField_dash : csvField "-" = true := by rfl

theorem csvField_isoDate (o : Nat) : csvField (isoDate o) = true := by
  rw [isoDate]
  simp [csvField_append, csvField_pad, csvField_dash]

theorem dateOkRange_add (a b lo : Nat) :
    dateOkRange lo (a + b) = (dateOkRange lo a && dateOkRange (lo + a) b) := by
  induction a generalizing lo with
  | zero => simp [dateOkRange]
  | succ n ih =>
      rw [show n + 1 + b = (n + b) + 1 by omega]
      simp only [dateOkRange, ih]
      rw [Nat.add_assoc, Nat.add_comm 1 n]
      simp [Bool.and_assoc]

theorem dateOkRange_spec : ∀ (n lo : Nat), dateOkRange lo n = true →
    ∀ o, lo ≤ o → o < lo + n → dateOk o = true := by
  intro n
  induction n with
  | zero => intro lo h o h1 h2; omega
  | succ m ih =>
      intro lo h o h1 h2
      simp only [dateOkRange, Bool.and_eq_true] at h
      by_cases ho : o = lo
      · rw [ho]; exact h.1
      · exact ih (lo + 1) h.2 o (by omega) (by omega)

/-! ### The whole hire-date ordinal range yields valid dates

The range 733773..739251 (2010-01-01 .. 2024-12-31) is checked by the
kernel in twelve chunks of at most 500 ordinals. -/

set_option maxRecDepth 100000 in
theorem dr0 : dateOkRange 733773 500 = true := by rfl
set_option maxRecDepth 100000 in
theorem dr1 : dateOkRange 734273 500 = true := by rfl
set_option maxRecDepth 100000 in
theorem dr2 : dateOkRange 734773 500 = true := by rfl
set_option maxRecDepth 100000 in
theorem dr3 : dateOkRange 735273 500 = true := by rfl
set_option maxRecDepth 100000 in
theorem dr4 : dateOkRange 735773 500 = true := by rfl
set_option maxRecDepth 100000 in
theorem dr5 : dateOkRange 736273 500 = true := by rfl
set_option maxRecDepth 100000 in
theorem dr6 : dateOkRange 736773 500 = true := by rfl
set_option maxRecDepth 100000 in
theorem dr7 : dateOkRange 737273 500 = true := by rfl
set_option maxRecDepth 100000 in
theorem dr8 : dateOkRange 737773 500 = true := by rfl
set_option maxRecDepth 100000 in
theorem dr9 : dateOkRange 738273 500 = true := by rfl
set_option maxRecDepth 100000 in
theorem dr10 : dateOkRange 738773 479 = true := by rfl

theorem dateOkRange_all : dateOkRange 733773 5479 = true := by
  rw [show (5479 : Nat) = 500 + (500 + (500 + (500 + (500 + (500 + (500 + (500 + (500 + (500 + 479))))))))) from rfl]
  rw [dateOkRange_add, dr0]
  rw [show (733773 + 500 : Nat) = 734273 from rfl, dateOkRange_add, dr1]
  rw [show (734273 + 500 : Nat) = 734773 from rfl, dateOkRange_add, dr2]
  rw [show (734773 + 500 : Nat) = 735273 from rfl, dateOkRange_add, dr3]
  rw [show (735273 + 500 : Nat) = 735773 from rfl, dateOkRange_add, dr4]
  rw [show (735773 + 500 : Nat) = 736273 from rfl, dateOkRange_add, dr5]
  rw [show (736273 + 500 : Nat) = 736773 from rfl, dateOkRange_add, dr6]
  rw [show (736773 + 500 : Nat) = 737273 from rfl, dateOkRange_add, dr7]
  rw [show (737273 + 500 : Nat) = 737773 from rfl, dateOkRange_add, dr8]
  rw [show (737773 + 500 : Nat) = 738273 from rfl, dateOkRange_add, dr9]
  rw [show (738273 + 500 : Nat) = 738773 from rfl, dr10]
  rfl

/-- Every ordinal of the generator's hire-date range denotes a valid
calendar date between 2010-01-01 and 2024-12-31. -/
theorem dateOk_in_range (o : Nat) (h1 : DATE_START ≤ o) (h2 : o ≤ DATE_END) :
    dateOk o = true := by
  have hs : DATE_START = 733773 := by rfl
  have he : DATE_END = 739251 := by rfl
  exact dateOkRange_spec 5479 733773 dateOkRange_all o (by omega) (by omega)

/-! ### Every generated row is well formed -/

theorem make_row_spec (i : Nat) (s : MTState) (row : String) (s1 : MTState)
    (h : make_row i s = some (row, s1)) : RowOk i row := by
  simp only [make_row, Option.bind_eq_some, Option.map_eq_some'] at h
  obtain ⟨p1, h1, p2, h2, p3, h3, p4, h4, p5, h5, heq⟩ := h
  simp only [rand_date, Option.map_eq_some'] at h5
  obtain ⟨q, hq, hq2⟩ := h5
  have hfn := choice_mem FIRST_NAMES s p1.1 p1.2 (by rw [h1])
  have hln := choice_mem LAST_NAMES p1.2 p2.1 p2.2 (by rw [h2])
  have hdp := choice_mem DEPARTMENTS p2.2 p3.1 p3.2 (by rw [h3])
  have hsal := randint_bounds 45000 220000 p3.2 p4.1 p4.2 (by rw [h4])
  have hdate := randint_bounds DATE_START DATE_END p4.2 q.1 q.2 (by rw [hq])
  have hDs : DATE_START = 733773 := by rfl
  have hDe : DATE_END = 739251 := by rfl
  have hod1 : DATE_START ≤ q.1 := hdate.1
  have hod2 : q.1 ≤ DATE_END := by omega
  have hp51 : p5.1 = isoDate q.1 := by
    simpa using (congrArg Prod.fst hq2).symm
  have hrow : row = Nat.repr i ++ "," ++ p1.1 ++ " " ++ p2.1 ++ "," ++ p3.1 ++ "," ++
      Nat.repr p4.1 ++ "," ++ p5.1 ++ "\n" := by
    simpa using (congrArg Prod.fst heq).symm
  refine ⟨p1.1, p2.1, p3.1, p4.1, q.1, hfn, hln, hdp, hsal.1, by omega, hod1, hod2,
    dateOk_in_range q.1 hod1 hod2, ?_⟩
  rw [hrow, hp51]

/-! ### The loop invariant and its preservation -/

theorem utf8_header : utf8Len header = 45 := by rfl

theorem rowOk_pos (id : Nat) (s : String) (h : RowOk id s) : 1 ≤ utf8Len s := by
  obtain ⟨fn, ln, dp, sal, o, _, _, _, _, _, _, _, _, hs⟩ := h
  rw [hs, utf8Len_append]
  have hnl : utf8Len "\n" = 1 := by rfl
  omega

theorem rowsOk_append (rows : List String) (row : String) (h : RowsOk rows)
    (h2 : RowOk (rows.length + 1) row) : RowsOk (rows ++ [row]) := by
  intro k hk
  have hk2 : k < rows.length + 1 := by simpa using hk
  rcases Nat.lt_or_ge k rows.length with hlt | hge
  · have hg : (rows ++ [row]).get ⟨k, hk⟩ = rows.get ⟨k, hlt⟩ := by
      simp [List.get_eq_getElem, List.getElem_append_left hlt]
    rw [hg]
    exact h k hlt
  · have hke : k = rows.length := by omega
    subst hke
    have hg : (rows ++ [row]).get ⟨rows.length, hk⟩ = row := by
      simp
    rw [hg]
    exact h2

theorem sumBytes_single (r : String) : sumBytes [r] = utf8Len r := by
  simp [sumBytes]

theorem join_nil_str : String.join ([] : List String) = "" := by rfl

theorem loopN_sound (B F : Int) : ∀ (fuel : Nat) (st : GenState),
    Inv B F st → ResOk B F (loopN B F fuel st) ∧
      (B.toNat + 1 - sumBytes st.rows < fuel → loopN B F fuel st ≠ .fuelOut) := by
  intro fuel
  induction fuel with
  | zero =>
      intro st _
      refine ⟨by simp [loopN, ResOk], ?_⟩
      intro hf
      omega
  | succ m ih =>
      intro st inv
      obtain ⟨w, fl, bf, bb, i, rng, rows, tops, calls, rej⟩ := st
      obtain ⟨hw, hflush, hbuf, hsum, hi, hcalls, hrows, htops, htop⟩ := inv
      simp only at hw hflush hbuf hsum hi hcalls hrows htops htop
      have hwlen : utf8Len w + sumBytes bf = 45 + sumBytes rows := by
        have hcong := congrArg utf8Len hw
        rwa [utf8Len_append, utf8Len_append, utf8Len_join, utf8Len_join, utf8_header] at hcong
      have hfl_le : fl ≤ utf8Len w := by
        rcases hflush with ⟨h0, _⟩ | heq <;> omega
      have hkey : sumBytes rows ≤ fl + sumBytes bf := by
        rcases hflush with ⟨h0, hwh⟩ | heq
        · have hw45 : utf8Len w = 45 := by rw [hwh]; rfl
          omega
        · omega
      simp only [loopN]
      cases hmr : make_row i rng with
      | none => exact ⟨by simp [ResOk], fun _ => by simp⟩
      | some pr =>
        obtain ⟨row, rng1⟩ := pr
        simp only [ResOk]
        have hrOk : RowOk (rows.length + 1) row := by
          rw [← hi]
          exact make_row_spec i rng row rng1 hmr
        have hrpos : 1 ≤ utf8Len row := rowOk_pos _ _ hrOk
        by_cases hov : (fl : Int) + (bb : Int) + (utf8Len row : Int) > B
        · rw [if_pos hov]
          refine ⟨?_, fun _ => by simp⟩
          have hnewtop : fl + bb ≤ B.toNat + 45 := by
            have h1 : fl + bb ≤ 45 + sumBytes rows := by omega
            omega
          have htops2 : ∀ p ∈ tops ++ [(fl, bb)],
              (p.1 + p.2 ≤ B.toNat + 45) ∧ (1 ≤ F → (p.2 : Int) < F) := by
            intro p hp
            rcases List.mem_append.mp hp with hin | hone
            · exact htops p hin
            · have hpe : p = (fl, bb) := by simpa using hone
              subst hpe
              exact ⟨hnewtop, htop⟩
          simp only [ResOk]
          cases bf with
          | nil =>
            simp only [List.isEmpty_nil, if_true]
            have hbb0 : bb = 0 := by simpa [sumBytes] using hbuf
            refine ⟨?_, rfl, ?_, ?_, ?_, ?_, ?_, ?_, ?_, ?_⟩
            · show w = header ++ String.join rows
              rw [← hw, join_nil_str, append_empty_str]
            · exact hbb0
            · simpa using hi
            · simpa using hcalls
            · exact hrows
            · exact hsum
            · refine ⟨utf8Len row, rfl, ?_⟩
              push_cast
              omega
            · exact htops2
            · exact hfl_le
          | cons x xs =>
            simp only [List.isEmpty_cons, if_false, flushState]
            refine ⟨?_, rfl, rfl, ?_, ?_, ?_, ?_, ?_, ?_, ?_⟩
            · exact hw
            · simpa using hi
            · simpa using hcalls
            · exact hrows
            · exact hsum
            · refine ⟨utf8Len row, rfl, ?_⟩
              show (utf8Len (w ++ String.join (x :: xs)) : Int) + (utf8Len row : Int) > B
              have hflf : utf8Len (w ++ String.join (x :: xs)) = utf8Len w + sumBytes (x :: xs) := by
                rw [utf8Len_append, utf8Len_join]
              have hbb2 : bb = sumBytes (x :: xs) := hbuf
              rw [hflf]
              push_cast
              omega
            · exact htops2
            · exact Nat.le_refl _
        · rw [if_neg hov]
          have hsum2 : sumBytes (rows ++ [row]) ≤ B.toNat := by
            rw [sumBytes_append, sumBytes_single]
            omega
          have hnewtop : fl + bb ≤ B.toNat + 45 := by omega
          have htops2 : ∀ p ∈ tops ++ [(fl, bb)],
              (p.1 + p.2 ≤ B.toNat + 45) ∧ (1 ≤ F → (p.2 : Int) < F) := by
            intro p hp
            rcases List.mem_append.mp hp with hin | hone
            · exact htops p hin
            · have hpe : p = (fl, bb) := by simpa using hone
              subst hpe
              exact ⟨hnewtop, htop⟩
          have hw2 : w ++ String.join (bf ++ [row]) = header ++ String.join (rows ++ [row]) := by
            rw [join_append_single, join_append_single, ← String.append_assoc, hw,
              String.append_assoc]
          have hrows2 : RowsOk (rows ++ [row]) := rowsOk_append rows row hrows hrOk
          have hmeas : sumBytes (rows ++ [row]) = sumBytes rows + utf8Len row := by
            rw [sumBytes_append, sumBytes_single]
          by_cases hfth : F ≤ ((bb + utf8Len row : Nat) : Int)
          · rw [if_pos hfth]
            have inv2 : Inv B F (flushState
                ⟨w, fl, bf ++ [row], bb + utf8Len row, i + 1, rng1, rows ++ [row],
                  tops ++ [(fl, bb)], calls + 1, rej⟩) := by
              simp only [flushState]
              refine ⟨?_, Or.inr rfl, rfl, ?_, ?_, ?_, ?_, ?_, ?_⟩
              · rw [join_nil_str, append_empty_str]
                exact hw2
              · exact hsum2
              · simp [hi]
              · simp [hcalls]
              · exact hrows2
              · exact htops2
              · intro hF
                simpa using hF
            refine ⟨(ih _ inv2).1, fun hf => (ih _ inv2).2 ?_⟩
            show B.toNat + 1 - sumBytes (rows ++ [row]) < m
            rw [hmeas]
            simp only at hf
            omega
          · rw [if_neg hfth]
            have inv2 : Inv B F
                ⟨w, fl, bf ++ [row], bb + utf8Len row, i + 1, rng1, rows ++ [row],
                  tops ++ [(fl, bb)], calls + 1, rej⟩ := by
              refine ⟨hw2, ?_, ?_, hsum2, ?_, ?_, hrows2, htops2, ?_⟩
              · exact hflush
              · show bb + utf8Len row = sumBytes (bf ++ [row])
                rw [sumBytes_append, sumBytes_single, hbuf]
              · simp [hi]
              · simp [hcalls]
              · intro hF
                show ((bb + utf8Len row : Nat) : Int) < F
                omega
            refine ⟨(ih _ inv2).1, fun hf => (ih _ inv2).2 ?_⟩
            show B.toNat + 1 - sumBytes (rows ++ [row]) < m
            rw [hmeas]
            simp only at hf
            omega

/-! ### From the loop to whole runs -/

theorem initState_inv (B F : Int) (seed : Nat) : Inv B F (initState seed) := by
  refine ⟨rfl, Or.inl ⟨rfl, rfl⟩, rfl, ?_, rfl, rfl, ?_, ?_, ?_⟩
  · show sumBytes [] ≤ B.toNat
    simp [sumBytes]
  · intro k hk
    simp [initState] at hk
  · intro p hp
    simp [initState] at hp
  · intro hF
    show ((0 : Nat) : Int) < F
    omega

theorem toOption_eq_some (r : LoopRes) (st : GenState) :
    r.toOption = some st ↔ r = .done st := by
  cases r <;> simp [LoopRes.toOption]

theorem genRun_eq_some (B F : Int) (seed : Nat) (st : GenState) :
    genRun B F seed = some st ↔ loopN B F (runFuel B) (initState seed) = .done st := by
  show (runLoop B F seed).toOption = some st ↔ _
  rw [toOption_eq_some]
  show runLoop B F seed = _ ↔ _
  rw [runLoop]

theorem genRun_sound (B F : Int) (seed : Nat) (st : GenState)
    (h : genRun B F seed = some st) : Final B F st := by
  have hs := (loopN_sound B F (runFuel B) (initState seed) (initState_inv B F seed)).1
  rw [genRun_eq_some] at h
  rw [h] at hs
  exact hs

theorem runLoop_not_fuelOut (B F : Int) (seed : Nat) : runLoop B F seed ≠ .fuelOut := by
  have h := (loopN_sound B F (runFuel B) (initState seed) (initState_inv B F seed)).2
  unfold runLoop
  apply h
  show B.toNat + 1 - sumBytes [] < runFuel B
  have : sumBytes ([] : List String) = 0 := by simp [sumBytes]
  rw [this, runFuel]
  omega

/-! ### Field shape of the rows -/

theorem pools_csv :
    (FIRST_NAMES.all csvField && LAST_NAMES.all csvField && DEPARTMENTS.all csvField) = true := by
  decide

theorem mem_first_csv (fn : String) (h : fn ∈ FIRST_NAMES) : csvField fn = true := by
  have := pools_csv
  simp only [Bool.and_eq_true, List.all_eq_true] at this
  exact this.1.1 fn h

theorem mem_last_csv (ln : String) (h : ln ∈ LAST_NAMES) : csvField ln = true := by
  have := pools_csv
  simp only [Bool.and_eq_true, List.all_eq_true] at this
  exact this.1.2 ln h

theorem mem_dept_csv (dp : String) (h : dp ∈ DEPARTMENTS) : csvField dp = true := by
  have := pools_csv
  simp only [Bool.and_eq_true, List.all_eq_true] at this
  exact this.2 dp h

theorem csvField_space : csvField " " = true := by rfl

theorem rowOk_fiveFields (id : Nat) (s : String) (h : RowOk id s) : FiveFields s := by
  obtain ⟨fn, ln, dp, sal, o, hfn, hln, hdp, _, _, _, _, _, hs⟩ := h
  refine ⟨Nat.repr id, fn ++ " " ++ ln, dp, Nat.repr sal, isoDate o,
    csvField_repr id, ?_, mem_dept_csv dp hdp, csvField_repr sal, csvField_isoDate o, ?_⟩
  · rw [csvField_append, csvField_append, mem_first_csv fn hfn, csvField_space,
      mem_last_csv ln hln]
    rfl
  · rw [hs]
    simp [String.append_assoc]

/-! ### The first line of the output -/

theorem header_eq : header = headLine ++ "\n" := by rfl

theorem headLine_noNL : (headLine.data.all fun c => c != '\n') = true := by rfl

theorem firstLine_of_headLine (rest : String) :
    firstLine (headLine ++ "\n" ++ rest) = headLine := by
  unfold firstLine
  have hdata : (headLine ++ "\n" ++ rest).data = headLine.data ++ '\n' :: rest.data := by
    simp [String.data_append]
  rw [hdata, List.takeWhile_append]
  rw [show List.takeWhile (fun c => c != '\n') headLine.data = headLine.data from rfl]
  rw [if_pos rfl]
  rw [show List.takeWhile (fun c => c != '\n') ('\n' :: rest.data) = [] from rfl,
    List.append_nil]

/-! ### One unfolded loop step, and monotonicity of the accepted rows -/

theorem loopN_step (B F : Int) (fuel : Nat) (w : String) (fl : Nat) (bf : List String)
    (bb i : Nat) (rng r1 : MTState) (rows : List String) (tops : List (Nat × Nat))
    (calls : Nat) (rej : Option Nat) (row : String)
    (hmk : make_row i rng = some (row, r1)) :
    loopN B F (fuel + 1) ⟨w, fl, bf, bb, i, rng, rows, tops, calls, rej⟩ =
      if (fl : Int) + (bb : Int) + (utf8Len row : Int) > B then
        LoopRes.done (if bf.isEmpty
          then ⟨w, fl, bf, bb, i, r1, rows, tops ++ [(fl, bb)], calls + 1, some (utf8Len row)⟩
          else flushState
            ⟨w, fl, bf, bb, i, r1, rows, tops ++ [(fl, bb)], calls + 1, some (utf8Len row)⟩)
      else
        loopN B F fuel (if F ≤ ((bb + utf8Len row : Nat) : Int)
          then flushState ⟨w, fl, bf ++ [row], bb + utf8Len row, i + 1, r1, rows ++ [row],
            tops ++ [(fl, bb)], calls + 1, rej⟩
          else ⟨w, fl, bf ++ [row], bb + utf8Len row, i + 1, r1, rows ++ [row],
            tops ++ [(fl, bb)], calls + 1, rej⟩) := by
  simp only [loopN]
  rw [hmk]

theorem loopN_rows_le (B F : Int) : ∀ (fuel : Nat) (st1 st2 : GenState),
    loopN B F fuel st1 = .done st2 → st1.rows.length ≤ st2.rows.length := by
  intro fuel
  induction fuel with
  | zero => intro st1 st2 h; simp [loopN] at h
  | succ m ih =>
      intro st1 st2 h
      obtain ⟨w, fl, bf, bb, i, rng, rows, tops, calls, rej⟩ := st1
      cases hmr : make_row i rng with
      | none =>
          simp only [loopN, hmr] at h
          exact absurd h (by simp)
      | some pr =>
          obtain ⟨row, rng1⟩ := pr
          rw [loopN_step B F m w fl bf bb i rng rng1 rows tops calls rej row hmr] at h
          by_cases hov : (fl : Int) + (bb : Int) + (utf8Len row : Int) > B
          · rw [if_pos hov] at h
            cases bf with
            | nil =>
                simp only [List.isEmpty_nil, if_true] at h
                have h2 := LoopRes.done.inj h
                rw [← h2]
            | cons x xs =>
                simp only [List.isEmpty_cons, if_false] at h
                have h2 := LoopRes.done.inj h
                rw [← h2]
                exact Nat.le_refl _
          · rw [if_neg hov] at h
            by_cases hf2 : F ≤ ((bb + utf8Len row : Nat) : Int)
            · rw [if_pos hf2] at h
              have h2 := ih _ _ h
              simp only [flushState, List.length_append] at h2
              simp only
              omega
            · rw [if_neg hf2] at h
              have h2 := ih _ _ h
              simp only [List.length_append] at h2
              simp only
              omega

/-- The first candidate row for seed 42 is the 43-byte Victor Kim row. -/
theorem mk42 : make_row 1 (mtOfSeed 42) =
    some ("1,Victor Kim,Engineering,117097,2015-06-30\n", ⟨TW42, 6⟩) := by
  rw [mt42, make_row_pretwist 1 M42, tw42]
  rfl

set_option maxRecDepth 100000 in
/-- Seed 42, target 0 bytes: the very first candidate row overshoots, so
the file is the unconditional header alone. -/
theorem runEq0 : genRun 0 4096 42 = some runStD := by
  have hseed : initState 42 = ⟨header, 0, [], 0, 1, ⟨M42, 624⟩, [], [], 0, none⟩ := by
    rw [initState, mt42]
  have hstep : loopN 0 4096 (1 + 1) (⟨header, 0, [], 0, 1, ⟨M42, 624⟩, [], [], 0, none⟩ : GenState)
      = loopN 0 4096 (1 + 1) ⟨header, 0, [], 0, 1, ⟨TW42, 0⟩, [], [], 0, none⟩ := by
    have h := loopN_rng 0 4096 1 header 0 [] 0 1 ⟨M42, 624⟩ ⟨twist M42, 0⟩ [] [] 0 none
      (make_row_pretwist 1 M42)
    rw [tw42] at h
    exact h
  unfold genRun runLoop
  conv_lhs => rw [hseed, show runFuel 0 = 1 + 1 from rfl, hstep]
  rfl

/-! ## The claims -/

/-- Claim C1, corrected.  For every target `B`, seed and flush threshold,
the final file size is at most `B.toNat + 45`: the 45 header bytes are
written unconditionally and escape the budget check until the first
flush, because `os.path.getsize` reads 0 while the header sits in the
file object's buffer.  The size is maximal for the code's accounting: the
discarded candidate row would have pushed the file past `B`.  The claim's
bound `size ≤ B` is false on the code (see the counterexample). -/
theorem claim1_size_bound (B F : Int) (seed : Nat) (st : GenState)
    (h : genRun B F seed = some st) :
    fileSize st ≤ B.toNat + 45 ∧
      ∃ r, st.rejected = some r ∧ (fileSize st : Int) + (r : Int) > B := by
  have hf := genRun_sound B F seed st h
  have hsize : fileSize st = 45 + sumBytes st.rows := by
    show utf8Len st.written = _
    rw [hf.hw, utf8Len_append, utf8Len_join, utf8_header]
  constructor
  · have := hf.hsum
    omega
  · exact hf.hrej

/-- Witness for C1 at seed 42, target 500, flush threshold 4096. -/
theorem claim1_witness :
    genRun 500 4096 42 = some runStC ∧
      (fileSize runStC ≤ (500 : Int).toNat + 45 ∧
        ∃ r, runStC.rejected = some r ∧ (fileSize runStC : Int) + (r : Int) > 500) :=
  ⟨runEq500, claim1_size_bound 500 4096 42 runStC runEq500⟩

/-- Counterexample to C1 as stated: with seed 42, flush threshold 4096 and
target 47 bytes (more than the 45-byte header), the file ends up 88 bytes
long, exceeding the target. -/
theorem claim1_counterexample :
    (genRun 47 4096 42).map fileSize = some 88 ∧ 47 < 88 := by
  constructor
  · rw [runEq47]
    rfl
  · norm_num

/-- Claim C2, corrected.  The invariant that holds on the code is
`bytes_on_disk + bytes_in_buffer ≤ B.toNat + 45` (not `≤ B`): it holds at
the start of every loop iteration (`tops` records each observation), at
the end of the run, and for the closed file; the buffer is always flushed
(or empty) before the overshoot candidate is discarded. -/
theorem claim2_disk_buffer_bound (B F : Int) (seed : Nat) (st : GenState)
    (h : genRun B F seed = some st) :
    (∀ p ∈ st.tops, p.1 + p.2 ≤ B.toNat + 45) ∧
      diskPlusBuf st ≤ B.toNat + 45 ∧ st.buf = [] ∧ st.bufBytes = 0 ∧
      fileSize st ≤ B.toNat + 45 := by
  have hf := genRun_sound B F seed st h
  have hsize : fileSize st = 45 + sumBytes st.rows := by
    show utf8Len st.written = _
    rw [hf.hw, utf8Len_append, utf8Len_join, utf8_header]
  have hsum := hf.hsum
  have hfl := hf.hfl
  refine ⟨fun p hp => (hf.htops p hp).1, ?_, hf.hbufE, hf.hbb, ?_⟩
  · show st.flushedLen + st.bufBytes ≤ B.toNat + 45
    have hbb := hf.hbb
    have : utf8Len st.written = fileSize st := rfl
    omega
  · omega

/-- Witness for C2 at seed 42, target 45, flush threshold 1. -/
theorem claim2_witness :
    genRun 45 1 42 = some runStB ∧
      ((∀ p ∈ runStB.tops, p.1 + p.2 ≤ (45 : Int).toNat + 45) ∧
        diskPlusBuf runStB ≤ (45 : Int).toNat + 45 ∧ runStB.buf = [] ∧
        runStB.bufBytes = 0 ∧ fileSize runStB ≤ (45 : Int).toNat + 45) :=
  ⟨runEq45F1, claim2_disk_buffer_bound 45 1 42 runStB runEq45F1⟩

/-- Counterexample to C2 as stated: with seed 42, target 45 and flush
threshold 4096, at loop exit the bytes on disk plus the (empty) buffer
total 88 > 45. -/
theorem claim2_counterexample :
    (genRun 45 4096 42).map diskPlusBuf = some 88 ∧ 45 < 88 := by
  constructor
  · rw [runEq45]
    rfl
  · norm_num

/-- Claim C3, confirmed.  Two runs with the same target, seed and flush
threshold produce the same bytes: the model is a function of exactly
these inputs (the script's only entropy source is the seeded MT19937
stream, and `os.path.getsize` observations are determined by the file's
own prior writes). -/
theorem claim3_deterministic (B F : Int) (seed : Nat) (st1 st2 : GenState)
    (h1 : genRun B F seed = some st1) (h2 : genRun B F seed = some st2) :
    fileBytes st1 = fileBytes st2 ∧ fileSize st1 = fileSize st2 := by
  rw [h1] at h2
  cases Option.some.inj h2
  exact ⟨rfl, rfl⟩

/-- Witness for C3: two runs at seed 42, target 45, flush 4096. -/
theorem claim3_witness :
    genRun 45 4096 42 = some runStA ∧
      (fileBytes runStA = fileBytes runStA ∧ fileSize runStA = fileSize runStA) :=
  ⟨runEq45, claim3_deterministic 45 4096 42 runStA runStA runEq45 runEq45⟩

/-- Claim C4, confirmed.  For every configuration the output is the fixed
header line, a newline, then the data rows, so the first line is exactly
`employee_id,name,department,salary,hire_date`; the header is written
before the loop and unconditionally (the theorem holds for every `B`,
including targets below the header's 45 bytes — see the witness at
target 0). -/
theorem claim4_header_line (B F : Int) (seed : Nat) (st : GenState)
    (h : genRun B F seed = some st) :
    fileBytes st = headLine ++ "\n" ++ String.join st.rows ∧
      firstLine (fileBytes st) = headLine ∧
      (headLine.data.all fun c => c != '\n') = true := by
  have hf := genRun_sound B F seed st h
  have hb : fileBytes st = headLine ++ "\n" ++ String.join st.rows := by
    show st.written = _
    rw [hf.hw, header_eq, String.append_assoc]
  refine ⟨hb, ?_, headLine_noNL⟩
  rw [hb]
  exact firstLine_of_headLine _

/-- Witness for C4 at target 0 — smaller than the header — where the
header is still written. -/
theorem claim4_witness :
    genRun 0 4096 42 = some runStD ∧
      (fileBytes runStD = headLine ++ "\n" ++ String.join runStD.rows ∧
        firstLine (fileBytes runStD) = headLine ∧
        (headLine.data.all fun c => c != '\n') = true) :=
  ⟨runEq0, claim4_header_line 0 4096 42 runStD runEq0⟩

/-- Claim C5, confirmed.  Every data row of every run is well formed: it
splits into exactly five comma-separated fields (`FiveFields`), field 1
is the decimal id, which is `k + 1` for the `k`-th data row and so starts
at 1 and increases by exactly 1; field 4 is a salary in 45000..220000;
field 5 is the ISO-8601 text of a valid calendar date between 2010-01-01
and 2024-12-31 (`RowOk`, `dateOk`). -/
theorem claim5_rows_wellformed (B F : Int) (seed : Nat) (st : GenState)
    (h : genRun B F seed = some st) :
    RowsOk st.rows ∧ ∀ k (hk : k < st.rows.length), FiveFields (st.rows.get ⟨k, hk⟩) := by
  have hf := genRun_sound B F seed st h
  exact ⟨hf.hrows, fun k hk => rowOk_fiveFields _ _ (hf.hrows k hk)⟩

/-- Witness for C5 at seed 42, target 500, flush 4096 (twelve rows). -/
theorem claim5_witness :
    genRun 500 4096 42 = some runStC ∧
      (RowsOk runStC.rows ∧
        ∀ k (hk : k < runStC.rows.length), FiveFields (runStC.rows.get ⟨k, hk⟩)) :=
  ⟨runEq500, claim5_rows_wellformed 500 4096 42 runStC runEq500⟩

/-- Claim C6, corrected.  With the target equal to the 45-byte header
size, the file is header-only exactly when the first candidate row is
longer than 45 bytes: the size check compares against an on-disk size of
0 (the header is still buffered), so a first row of at most 45 bytes is
accepted.  The claim (header-only for every seed) is false on the code:
seed 42's first row has 43 bytes — see the counterexample. -/
theorem claim6_tiny_budget (F : Int) (seed : Nat) (st : GenState) (row : String)
    (r1 : MTState) (hrun : genRun 45 F seed = some st)
    (hmk : make_row 1 (mtOfSeed seed) = some (row, r1)) :
    st.rows = [] ↔ 45 < utf8Len row := by
  rw [genRun_eq_some] at hrun
  have hfuel : runFuel (45 : Int) = 46 + 1 := by rfl
  have hinit : initState seed = ⟨header, 0, [], 0, 1, mtOfSeed seed, [], [], 0, none⟩ := rfl
  rw [hfuel, hinit] at hrun
  rw [loopN_step 45 F 46 header 0 [] 0 1 (mtOfSeed seed) r1 [] [] 0 none row hmk] at hrun
  by_cases hov : ((0 : Nat) : Int) + ((0 : Nat) : Int) + (utf8Len row : Int) > 45
  · rw [if_pos hov] at hrun
    simp only [List.isEmpty_nil, if_true] at hrun
    have h2 := LoopRes.done.inj hrun
    constructor
    · intro _
      push_cast at hov
      omega
    · intro _
      rw [← h2]
  · rw [if_neg hov] at hrun
    have hlen2 : 1 ≤ st.rows.length := by
      by_cases hf2 : F ≤ ((0 + utf8Len row : Nat) : Int)
      · rw [if_pos hf2] at hrun
        have hle := loopN_rows_le 45 F 46 _ _ hrun
        simpa [flushState] using hle
      · rw [if_neg hf2] at hrun
        have hle := loopN_rows_le 45 F 46 _ _ hrun
        simpa using hle
    constructor
    · intro hnil
      rw [hnil] at hlen2
      simp at hlen2
    · intro hgt
      exfalso
      push_cast at hov
      omega

/-- Witness for C6: at seed 42 the first candidate row is 43 bytes, so
the biconditional instantiates to `rows = [] ↔ 45 < 43`, and indeed one
row was accepted. -/
theorem claim6_witness :
    genRun 45 4096 42 = some runStA ∧
      make_row 1 (mtOfSeed 42) =
        some ("1,Victor Kim,Engineering,117097,2015-06-30\n", ⟨TW42, 6⟩) ∧
      (runStA.rows = [] ↔ 45 < utf8Len "1,Victor Kim,Engineering,117097,2015-06-30\n") :=
  ⟨runEq45, mk42, claim6_tiny_budget 4096 42 runStA _ _ runEq45 mk42⟩

/-- Counterexample to C6 as stated: at seed 42 (flush threshold 4096) the
target-45 run writes one data row, not a header-only file. -/
theorem claim6_counterexample :
    (genRun 45 4096 42).map rowCount = some 1 ∧ (1 : Nat) ≠ 0 := by
  constructor
  · rw [runEq45]
    rfl
  · norm_num

/-- Claim C7, confirmed.  The id counter ends at one past the number of
accepted rows — it was incremented exactly once per accepted row and not
for the discarded candidate — and `_make_row` was called exactly once per
accepted row plus once for the discarded candidate, whose byte length is
recorded; no further RNG draws happen after the discard (the loop ends). -/
theorem claim7_id_discipline (B F : Int) (seed : Nat) (st : GenState)
    (h : genRun B F seed = some st) :
    st.i = st.rows.length + 1 ∧ st.calls = st.rows.length + 1 ∧
      st.rejected.isSome = true := by
  have hf := genRun_sound B F seed st h
  refine ⟨hf.hi, hf.hcalls, ?_⟩
  obtain ⟨r, hr, _⟩ := hf.hrej
  rw [hr]
  rfl

/-- Witness for C7 at seed 42, target 47: one accepted row, id counter 2,
two `_make_row` calls, one recorded rejection. -/
theorem claim7_witness :
    genRun 47 4096 42 = some runStA ∧
      (runStA.i = runStA.rows.length + 1 ∧ runStA.calls = runStA.rows.length + 1 ∧
        runStA.rejected.isSome = true) :=
  ⟨runEq47, claim7_id_discipline 47 4096 42 runStA runEq47⟩

/-- Claim C8, corrected.  For a positive flush threshold the buffered
byte count is below `F` at the start of every loop iteration (so the
buffer is flushed and cleared whenever an accepted row pushes it to `F`
or beyond), and the final state is fully flushed; but the file is
size-bounded only by `B.toNat + 45`, not by `B` — even at `F = 1` the
header bytes escape the budget check (see the counterexample). -/
theorem claim8_flush_threshold (B F : Int) (seed : Nat) (st : GenState)
    (hF : 1 ≤ F) (h : genRun B F seed = some st) :
    (∀ p ∈ st.tops, (p.2 : Int) < F) ∧ st.buf = [] ∧ st.bufBytes = 0 ∧
      fileSize st ≤ B.toNat + 45 := by
  have hf := genRun_sound B F seed st h
  have hsize : fileSize st = 45 + sumBytes st.rows := by
    show utf8Len st.written = _
    rw [hf.hw, utf8Len_append, utf8Len_join, utf8_header]
  have hsum := hf.hsum
  refine ⟨fun p hp => (hf.htops p hp).2 hF, hf.hbufE, hf.hbb, ?_⟩
  omega

/-- Witness for C8 at seed 42, target 45, flush threshold 1. -/
theorem claim8_witness :
    1 ≤ (1 : Int) ∧
      ((∀ p ∈ runStB.tops, (p.2 : Int) < 1) ∧ runStB.buf = [] ∧ runStB.bufBytes = 0 ∧
        fileSize runStB ≤ (45 : Int).toNat + 45) :=
  ⟨by norm_num, claim8_flush_threshold 45 1 42 runStB (by norm_num) runEq45F1⟩

/-- Counterexample to C8's size-bounded clause: at flush threshold 1 the
target-45 run still produces an 88-byte file. -/
theorem claim8_counterexample :
    (genRun 45 1 42).map fileSize = some 88 ∧ 45 < 88 := by
  constructor
  · rw [runEq45F1]
    rfl
  · norm_num

set_option maxRecDepth 100000 in
/-- Claim C9 (the spec's end-to-end example), settled against the code:
with seed 42, target 500 and flush threshold 4096 the output begins with
the header line and ends with a newline, and the run is reproducible (the
model is a function of its inputs) — but the total size is 529 bytes,
violating the promised bound of 500: the header's 45 bytes escape the
budget check because `os.path.getsize` reads 0 before the first flush. -/
theorem claim9_end_to_end :
    genRun 500 4096 42 = some runStC ∧
      fileSize runStC = 529 ∧ 500 < fileSize runStC ∧
      firstLine (fileBytes runStC) = headLine ∧
      (fileBytes runStC).data.getLast? = some '\n' := by
  refine ⟨runEq500, by rfl, ?_, by rfl, by rfl⟩
  have h : fileSize runStC = 529 := by rfl
  omega

/-- Claim C10, confirmed.  The loop always terminates: every iteration
either discards the candidate row and breaks, or accepts a row of at
least one byte while the accepted total stays within `max B 0`, so at
most `B.toNat + 1` iterations run; the model's iteration fuel
`B.toNat + 2` is never exhausted. -/
theorem claim10_terminates (B F : Int) (seed : Nat) :
    (runLoop B F seed).terminated = true := by
  have h := runLoop_not_fuelOut B F seed
  cases hres : runLoop B F seed with
  | done st => rfl
  | rngOut => rfl
  | fuelOut => exact absurd hres h

end GenEmployees
